import Mathlib

/-!
Verification of the iNews FTP gateway rundown watcher.

This development gives a shallow embedding of the `RundownWatcher` class
(`src/unnamed/part_001` of the repository) and proves properties of its poll
cycle, its event emission order, and its `ResyncRundown` operation.

External collaborators that are not part of the analysed sources — the NRCS
client (`RundownManager.downloadRundown`, `fetchINewsStoriesById`), the
control-plane client (`CoreHandler.GetSegmentsCacheById`, `setStatus`), the
playlist resolver (`ResolveRundownIntoPlaylist`), the playlist differ
(`DiffPlaylist`) and the rank assigner (`AssignRanksToSegments`) — are modelled
as an abstract environment `Env`: the watcher's behaviour is proved for every
possible behaviour of those collaborators unless stated otherwise.

JavaScript `Map`s are modelled as insertion-ordered association lists with the
first occurrence of a key authoritative, and `Set`s as duplicate-free
insertion-ordered lists.
-/

namespace Gateway

/-- JS `Map.get`: value of the first entry with the given key. -/
def mget {α : Type} : List (String × α) → String → Option α
  | [], _ => none
  | p :: rest, k => if p.1 = k then some p.2 else mget rest k

/-- JS `Map.set`: replace the first entry with the key in place, else append. -/
def mset {α : Type} : List (String × α) → String → α → List (String × α)
  | [], k, v => [(k, v)]
  | p :: rest, k, v => if p.1 = k then (k, v) :: rest else p :: mset rest k v

/-- JS `Map.delete`. -/
def mdel {α : Type} (m : List (String × α)) (k : String) : List (String × α) :=
  m.filter (fun p => p.1 != k)

/-- JS `Set.add`: insertion-ordered, duplicate free. -/
def sadd (s : List String) (x : String) : List String :=
  if x ∈ s then s else s ++ [x]

/-- JS `Set.delete`. -/
def sdel (s : List String) (x : String) : List String :=
  s.filter (fun y => y != x)

/-! ## Data model (src/unnamed/part_001 lines 128-144 and datastructures) -/

/-- The single introspected field of the opaque iNews story payload
(`meta.float`, read at part_001 line 745). -/
structure INewsStoryMeta where
  float : Bool
  deriving DecidableEq, Repr

/-- Opaque story payload; the watcher only reads `meta.float` and passes the
rest through, represented here by `body`. -/
structure INewsStory where
  meta : INewsStoryMeta
  body : String
  deriving DecidableEq, Repr

/-- Source `ReducedSegment` (part_001 line 132). -/
structure ReducedSegment where
  externalId : String
  name : String
  modified : Nat
  rank : Rat
  locator : String
  deriving DecidableEq, Repr

/-- Source `ReducedRundown` (part_001 lines 129-131): what `downloadRundown` returns. -/
structure ReducedRundown where
  externalId : String
  name : String
  gatewayVersion : String
  segments : List ReducedSegment
  deriving DecidableEq, Repr

/-- Source `UnrankedSegment` (part_001 line 133): a fetched story. -/
structure UnrankedSegment where
  rundownId : String
  externalId : String
  name : String
  modified : Nat
  locator : String
  iNewsStory : INewsStory
  deriving DecidableEq, Repr

/-- Source `RundownSegment` (datastructures/Segment), field order as in the
constructor call at part_001 lines 451-459. -/
structure RundownSegment where
  rundownId : String
  iNewsStory : INewsStory
  modified : Nat
  locator : String
  externalId : String
  rank : Rat
  name : String
  deriving DecidableEq, Repr

/-- One entry of a `ResolvedPlaylist` (helpers/ResolveRundownIntoPlaylist):
`\x7brundownId, segments, backTime?\x7d`. -/
structure PlaylistRundown where
  rundownId : String
  segments : List String
  backTime : Option String
  deriving DecidableEq, Repr

/-- Source `INewsRundown` (datastructures/Rundown), constructor call at part_001
lines 463-469. -/
structure INewsRundown where
  externalId : String
  name : String
  gatewayVersion : String
  segments : List RundownSegment
  backTime : Option String
  deriving DecidableEq, Repr

/-- Source `MutatedSegment` payload (part_001 lines 740-746). -/
structure MutatedSegment where
  modified : Nat
  locator : String
  rundownId : String
  iNewsStory : INewsStory
  float : Bool
  deriving DecidableEq, Repr

/-- Source `IngestSegment` (part_001 lines 735-747); `parts` is always empty and is
omitted. -/
structure IngestSegment where
  externalId : String
  name : String
  rank : Rat
  payload : MutatedSegment
  deriving DecidableEq, Repr

/-- Source `IngestRundown` (part_001 lines 717-726); the constant `type` field is
omitted and the payload fields are inlined. -/
structure IngestRundown where
  externalId : String
  name : String
  segments : List IngestSegment
  playlistExternalId : String
  backTime : Option String
  deriving DecidableEq, Repr

/-- The change list produced by `DiffPlaylist` (helpers/DiffPlaylist), shapes
as used at part_001 lines 501-523. -/
inductive PlaylistChange where
  | rundownCreated (rundownExternalId : String)
  | rundownDeleted (rundownExternalId : String)
  | rundownUpdated (rundownExternalId : String)
  | segmentChanged (rundownExternalId segmentExternalId : String)
  | segmentCreated (rundownExternalId segmentExternalId : String)
  | segmentMoved (rundownExternalId segmentExternalId : String)
  | segmentDeleted (rundownExternalId segmentExternalId : String)
  deriving DecidableEq, Repr

/-- One element of the output of `AssignRanksToSegments`, shape as used at
part_001 lines 490-499. -/
structure RundownRanks where
  rundownId : String
  assignedRanks : List (String × Rat)
  recalculatedAsIntegers : Bool
  deriving DecidableEq, Repr

/-- The events the watcher emits (part_001 lines 760-786). -/
inductive WatcherEvent where
  | rundownDelete (rundownId : String)
  | rundownCreate (rundownId : String) (rundown : IngestRundown)
  | rundownUpdate (rundownId : String) (rundown : IngestRundown)
  | segmentDelete (rundownId : String) (segmentId : String)
  | segmentUpdate (rundownId : String) (segmentId : String) (seg : IngestSegment)
  | segmentCreate (rundownId : String) (segmentId : String) (seg : IngestSegment)
  | segmentRanksUpdate (rundownId : String) (ranks : List (String × Rat))
  deriving DecidableEq, Repr

/-- Source `P.StatusCode` values used by the watcher. -/
inductive StatusCode where
  | good
  | warningMinor
  | warningMajor
  deriving DecidableEq, Repr

/-- The external collaborators, abstracted.  `σ` is the type of the opaque
`segmentChanges` value that `DiffPlaylist` produces and `AssignRanksToSegments`
consumes; the watcher never inspects it. -/
structure Env (σ : Type) where
  fetchINewsStoriesById : String → List String → List (String × UnrankedSegment)
  getSegmentsCacheById : String → List String → List (String × RundownSegment)
  resolveRundownIntoPlaylist : String → List UnrankedSegment → List PlaylistRundown
  diffPlaylist : List INewsRundown → List INewsRundown → List PlaylistChange × σ
  assignRanksToSegments : List PlaylistRundown → List PlaylistChange → σ →
    List (String × List (String × Rat)) → List (String × Nat) → List RundownRanks
  now : Nat

/-- The watcher's mutable caches (part_001 lines 183-193). -/
structure WatcherState where
  previousRanks : List (String × List (String × Rat))
  lastForcedRankRecalculation : List (String × Nat)
  cachedINewsData : List (String × UnrankedSegment)
  cachedPlaylistAssignments : List (String × List PlaylistRundown)
  cachedAssignedRundowns : List (String × List INewsRundown)
  skipCacheForRundown : List String
  playlists : List (String × List String)
  rundowns : List (String × List String)
  segments : List (String × ReducedSegment)
  deriving DecidableEq, Repr

/-- The arguments of one `processUpdatedRundown` call: the environment, the
configured gateway version, the downloaded listing and the current caches. -/
structure PollIn (σ : Type) where
  env : Env σ
  gatewayVersion : String
  playlistId : String
  playlist : ReducedRundown
  state : WatcherState

/-! ## The poll pipeline (`processUpdatedRundown`, part_001 lines 340-685)

Each local of the source function becomes one definition taking the call
arguments `i : PollIn σ`. -/

/-- Fold of part_001 lines 342-346 / 359-370: walk the listing and add the
external id of every segment satisfying `p` to the accumulated set. -/
def addMatching (p : ReducedSegment → Bool) (segs : List ReducedSegment)
    (acc : List String) : List String :=
  segs.foldl (fun acc s => if p s then sadd acc s.externalId else acc) acc

/-- The stale check of part_001 lines 360-369 against the `segments` cache:
uncached, or cached with a different locator. -/
def staleInSegmentsCache (segCache : List (String × ReducedSegment))
    (s : ReducedSegment) : Bool :=
  match mget segCache s.externalId with
  | none => true
  | some cs => cs.locator != s.locator

variable {σ : Type}

/-- Source `uncachedINewsData` (part_001 lines 341-371): ids missing from
`cachedINewsData`, plus — only when the playlist is already in the `playlists`
cache — ids that are stale with respect to the `segments` cache.  The
`cachedRundowns` local of lines 351-356 is dead code and is omitted. -/
def uncachedSet (i : PollIn σ) : List String :=
  let first := addMatching
    (fun s => !(mget i.state.cachedINewsData s.externalId).isSome)
    i.playlist.segments []
  if (mget i.state.playlists i.playlistId).isSome then
    addMatching (staleInSegmentsCache i.state.segments) i.playlist.segments first
  else first

/-- Source `iNewsData` (part_001 lines 373-378). -/
def fetchedStories (i : PollIn σ) : List (String × UnrankedSegment) :=
  i.env.fetchINewsStoriesById i.playlistId (uncachedSet i)

/-- Fold of part_001 lines 380-382 (and 430-434): write every fetched entry
into a map. -/
def mergeFetched {α : Type} (base : List (String × α)) (fetched : List (String × α)) :
    List (String × α) :=
  fetched.foldl (fun m p => mset m p.1 p.2) base

/-- Source `this.cachedINewsData` after the writes of part_001 lines 380-382. -/
def inewsCacheAfterFetch (i : PollIn σ) : List (String × UnrankedSegment) :=
  mergeFetched i.state.cachedINewsData (fetchedStories i)

/-- Source `segmentsToResolve` (part_001 lines 384-397): listing order, dropping the
(impossible) cache misses. -/
def segmentsToResolve (i : PollIn σ) : List UnrankedSegment :=
  i.playlist.segments.filterMap (fun s => mget (inewsCacheAfterFetch i) s.externalId)

/-- The raw resolver output (part_001 line 399). -/
def resolverOutput (i : PollIn σ) : List PlaylistRundown :=
  i.env.resolveRundownIntoPlaylist i.playlistId (segmentsToResolve i)

/-- Source `playlistAssignments` (part_001 lines 399-405): an empty resolver output is
replaced by the single empty rundown `playlistId ++ "_1"`. -/
def playlistAssignments (i : PollIn σ) : List PlaylistRundown :=
  if (resolverOutput i).isEmpty then
    [{ rundownId := i.playlistId ++ "_1", segments := [], backTime := none }]
  else resolverOutput i

/-- The skip-flag consumption of part_001 lines 410-414. -/
def consumeSkipFlags : List PlaylistRundown → List String → List String
  | [], skip => skip
  | r :: rest, skip =>
    if r.rundownId ∈ skip then consumeSkipFlags rest (sdel skip r.rundownId)
    else consumeSkipFlags rest skip

/-- The `GetSegmentsCacheById` calls issued at part_001 lines 410-424: one call
per resolved rundown not carrying the skip flag, over its stale segment ids. -/
def ingestCacheCalls (uncached : List String) :
    List PlaylistRundown → List String → List (String × List String)
  | [], _ => []
  | r :: rest, skip =>
    if r.rundownId ∈ skip then
      ingestCacheCalls uncached rest (sdel skip r.rundownId)
    else
      (r.rundownId, r.segments.filter (fun sid => uncached.contains sid)) ::
        ingestCacheCalls uncached rest skip

/-- Source `skipCacheForRundown` after the loop of part_001 lines 410-424. -/
def skipAfterConsume (i : PollIn σ) : List String :=
  consumeSkipFlags (playlistAssignments i) i.state.skipCacheForRundown

/-- The control-plane cache calls of this poll. -/
def cacheFetchCalls (i : PollIn σ) : List (String × List String) :=
  ingestCacheCalls (uncachedSet i) (playlistAssignments i) i.state.skipCacheForRundown

/-- Source `ingestCacheData` (part_001 lines 426-434): the merged call results. -/
def ingestCacheData (i : PollIn σ) : List (String × RundownSegment) :=
  (cacheFetchCalls i).foldl
    (fun m c => mergeFetched m (i.env.getSegmentsCacheById c.1 c.2)) []

/-- Source `rundownSegments` of one assignment (part_001 lines 439-461). -/
def buildRundownSegments (cache : List (String × UnrankedSegment)) (rid : String)
    (sids : List String) : List RundownSegment :=
  sids.filterMap (fun sid =>
    (mget cache sid).map (fun d =>
      { rundownId := rid, iNewsStory := d.iNewsStory, modified := d.modified,
        locator := d.locator, externalId := sid, rank := 0, name := d.name }))

/-- Source `assignedRundowns` (part_001 lines 436-472). -/
def assignedRundowns (i : PollIn σ) : List INewsRundown :=
  (playlistAssignments i).map (fun r =>
    { externalId := r.rundownId, name := r.rundownId,
      gatewayVersion := i.gatewayVersion,
      segments := buildRundownSegments (inewsCacheAfterFetch i) r.rundownId r.segments,
      backTime := r.backTime })

/-- Source `changes` from `DiffPlaylist` (part_001 lines 474-477). -/
def diffChanges (i : PollIn σ) : List PlaylistChange :=
  (i.env.diffPlaylist (assignedRundowns i)
    ((mget i.state.cachedAssignedRundowns i.playlistId).getD [])).1

/-- Source `segmentChanges` from `DiffPlaylist`, passed through opaquely. -/
def diffSegmentChanges (i : PollIn σ) : σ :=
  (i.env.diffPlaylist (assignedRundowns i)
    ((mget i.state.cachedAssignedRundowns i.playlistId).getD [])).2

/-- Source `segmentRanks` (part_001 lines 482-488). -/
def rankOutput (i : PollIn σ) : List RundownRanks :=
  i.env.assignRanksToSegments (playlistAssignments i) (diffChanges i)
    (diffSegmentChanges i) i.state.previousRanks i.state.lastForcedRankRecalculation

/-- The `lastForcedRankRecalculation` writes of part_001 lines 491-493. -/
def lastForcedAfter (i : PollIn σ) : List (String × Nat) :=
  (rankOutput i).foldl
    (fun m r => if r.recalculatedAsIntegers then mset m r.rundownId i.env.now else m)
    i.state.lastForcedRankRecalculation

/-- Source `assignedRanks` (part_001 lines 489-497): the merged per-rundown maps. -/
def assignedRanks (i : PollIn σ) : List (String × Rat) :=
  (rankOutput i).foldl
    (fun m r => r.assignedRanks.foldl (fun m p => mset m p.1 p.2) m) []

/-- Source `updatePreviousRanks` applied per rundown (part_001 lines 498, 750-758). -/
def previousRanksAfter (i : PollIn σ) : List (String × List (String × Rat)) :=
  (rankOutput i).foldl
    (fun m r => mset m r.rundownId
      (r.assignedRanks.foldl (fun rm p => mset rm p.1 p.2) []))
    i.state.previousRanks

/-- Source `playlistDeletedRundowns` (part_001 lines 501-503). -/
def deletedRundownIds (i : PollIn σ) : List String :=
  (diffChanges i).filterMap (fun c =>
    match c with
    | .rundownDeleted rid => some rid
    | _ => none)

/-- Source `playlistCreatedRundowns` (part_001 lines 504-506). -/
def createdRundownIds (i : PollIn σ) : List String :=
  (diffChanges i).filterMap (fun c =>
    match c with
    | .rundownCreated rid => some rid
    | _ => none)

/-- Source `playlistUpdatedRundowns` (part_001 lines 507-509). -/
def updatedRundownIds (i : PollIn σ) : List String :=
  (diffChanges i).filterMap (fun c =>
    match c with
    | .rundownUpdated rid => some rid
    | _ => none)

/-- The four segment-level change lists the emission phase filters down
(part_001 lines 510-523).  Note that the filter at lines 510-514 keeps only
`PlaylistChangeSegmentChanged` entries despite its broader type annotation. -/
structure SegLists where
  changed : List (String × String)
  deleted : List (String × String)
  created : List (String × String)
  moved : List (String × String)
  deriving DecidableEq, Repr

/-- The initial segment-level change lists (part_001 lines 510-523). -/
def segListsInitial (i : PollIn σ) : SegLists where
  changed := (diffChanges i).filterMap (fun c =>
    match c with
    | .segmentChanged r s => some (r, s)
    | _ => none)
  deleted := (diffChanges i).filterMap (fun c =>
    match c with
    | .segmentDeleted r s => some (r, s)
    | _ => none)
  created := (diffChanges i).filterMap (fun c =>
    match c with
    | .segmentCreated r s => some (r, s)
    | _ => none)
  moved := (diffChanges i).filterMap (fun c =>
    match c with
    | .segmentMoved r s => some (r, s)
    | _ => none)

/-- Source `this.segments` after the writes of part_001 lines 525-527. -/
def segmentsCacheAfter (i : PollIn σ) : List (String × ReducedSegment) :=
  i.playlist.segments.foldl (fun m s => mset m s.externalId s) i.state.segments

/-- Source `this.rundowns` after the writes of part_001 lines 528-530. -/
def rundownsCacheAfter (i : PollIn σ) : List (String × List String) :=
  (playlistAssignments i).foldl (fun m r => mset m r.rundownId r.segments)
    i.state.rundowns

/-- Source `this.playlists` after the write of part_001 lines 531-534. -/
def playlistsCacheAfter (i : PollIn σ) : List (String × List String) :=
  mset i.state.playlists i.playlistId ((playlistAssignments i).map (fun r => r.rundownId))

/-- Drop every entry of a containing rundown (part_001 lines 539-542 etc.). -/
def filterOutRundown (rid : String) (l : List (String × String)) :
    List (String × String) :=
  l.filter (fun s => s.1 != rid)

/-- List filtering done by the deleted-rundowns loop (part_001 lines 536-543). -/
def filteredAfterDeletedRundowns : List String → SegLists → SegLists
  | [], L => L
  | rid :: rest, L =>
    filteredAfterDeletedRundowns rest
      ⟨filterOutRundown rid L.changed, filterOutRundown rid L.deleted,
       filterOutRundown rid L.created, filterOutRundown rid L.moved⟩

/-- List filtering done by the created- and updated-rundowns loops (part_001
lines 574-582 and 608-616): only rundown ids found among the assignments
filter, and the deleted list is left alone. -/
def filterCoveredSegments (pa : List PlaylistRundown) :
    List String → SegLists → SegLists
  | [], L => L
  | rid :: rest, L =>
    match pa.find? (fun r => r.rundownId == rid) with
    | none => filterCoveredSegments pa rest L
    | some _ =>
      filterCoveredSegments pa rest
        ⟨filterOutRundown rid L.changed, L.deleted,
         filterOutRundown rid L.created, filterOutRundown rid L.moved⟩

/-- The lists after the deleted-rundowns loop. -/
def segListsAfterDeleted (i : PollIn σ) : SegLists :=
  filteredAfterDeletedRundowns (deletedRundownIds i) (segListsInitial i)

/-- The lists after the created-rundowns loop. -/
def segListsAfterCreated (i : PollIn σ) : SegLists :=
  filterCoveredSegments (playlistAssignments i) (createdRundownIds i)
    (segListsAfterDeleted i)

/-- The lists after the updated-rundowns loop, used by the segment emissions. -/
def segListsFinal (i : PollIn σ) : SegLists :=
  filterCoveredSegments (playlistAssignments i) (updatedRundownIds i)
    (segListsAfterCreated i)

/-- Source `inewsToIngestSegment` (part_001 lines 729-748). -/
def inewsToIngestSegment (rundownId segmentId : String) (inews : UnrankedSegment)
    (rank : Rat) : IngestSegment :=
  { externalId := segmentId, name := inews.name, rank := rank,
    payload := { modified := inews.modified, locator := inews.locator,
                 rundownId := rundownId, iNewsStory := inews.iNewsStory,
                 float := inews.iNewsStory.meta.float } }

/-- Source `playlistRundownToIngestRundown` (part_001 lines 687-727): segments missing
iNews data or a rank are dropped. -/
def playlistRundownToIngestRundown (playlistId rundownId : String)
    (segments : List String) (inewsCache : List (String × UnrankedSegment))
    (ranks : List (String × Rat)) (backTime : Option String) : IngestRundown :=
  { externalId := rundownId, name := playlistId,
    segments := segments.filterMap (fun sid =>
      match mget inewsCache sid, mget ranks sid with
      | some inews, some rank => some (inewsToIngestSegment rundownId sid inews rank)
      | _, _ => none),
    playlistExternalId := playlistId, backTime := backTime }

/-- The `rundown_delete` emissions (part_001 lines 536-537). -/
def deletedRundownEvents (l : List String) : List WatcherEvent :=
  l.map WatcherEvent.rundownDelete

/-- The `segment_delete` emissions (part_001 lines 545-547). -/
def deletedSegmentEvents (l : List (String × String)) : List WatcherEvent :=
  l.map (fun s => WatcherEvent.segmentDelete s.1 s.2)

/-- The `rundown_create` emissions (part_001 lines 549-572): a created rundown
id with no matching assignment is logged and skipped. -/
def createdRundownEvents (playlistId : String) (pa : List PlaylistRundown)
    (cache : List (String × UnrankedSegment)) (ranks : List (String × Rat)) :
    List String → List WatcherEvent
  | [] => []
  | rid :: rest =>
    match pa.find? (fun r => r.rundownId == rid) with
    | none => createdRundownEvents playlistId pa cache ranks rest
    | some ar =>
      WatcherEvent.rundownCreate rid
          (playlistRundownToIngestRundown playlistId ar.rundownId ar.segments
            cache ranks ar.backTime) ::
        createdRundownEvents playlistId pa cache ranks rest

/-- The `rundown_update` emissions (part_001 lines 585-606). -/
def updatedRundownEvents (playlistId : String) (pa : List PlaylistRundown)
    (cache : List (String × UnrankedSegment)) (ranks : List (String × Rat)) :
    List String → List WatcherEvent
  | [] => []
  | rid :: rest =>
    match pa.find? (fun r => r.rundownId == rid) with
    | none => updatedRundownEvents playlistId pa cache ranks rest
    | some ar =>
      WatcherEvent.rundownUpdate rid
          (playlistRundownToIngestRundown playlistId ar.rundownId ar.segments
            cache ranks ar.backTime) ::
        updatedRundownEvents playlistId pa cache ranks rest

/-- The rank used when emitting a segment (part_001 lines 623-635, 645-657,
668-675): the newly assigned rank, else the control-plane cached rank, else 0. -/
def resolveEmittedRank (assigned : List (String × Rat))
    (ingestCache : List (String × RundownSegment)) (sid : String) : Rat :=
  match mget assigned sid with
  | some r => r
  | none =>
    match mget ingestCache sid with
    | some c => c.rank
    | none => 0

/-- The `segment_update` emissions for remaining changed segments (part_001
lines 619-639): a segment without cached iNews data is logged and skipped. -/
def emitChangedSegments (cache : List (String × UnrankedSegment))
    (assigned : List (String × Rat)) (ingestCache : List (String × RundownSegment)) :
    List (String × String) → List WatcherEvent
  | [] => []
  | (rid, sid) :: rest =>
    match mget cache sid with
    | none => emitChangedSegments cache assigned ingestCache rest
    | some inews =>
      WatcherEvent.segmentUpdate rid sid
          (inewsToIngestSegment rid sid inews (resolveEmittedRank assigned ingestCache sid)) ::
        emitChangedSegments cache assigned ingestCache rest

/-- The `segment_create` emissions for remaining created segments (part_001
lines 641-661). -/
def emitCreatedSegments (cache : List (String × UnrankedSegment))
    (assigned : List (String × Rat)) (ingestCache : List (String × RundownSegment)) :
    List (String × String) → List WatcherEvent
  | [] => []
  | (rid, sid) :: rest =>
    match mget cache sid with
    | none => emitCreatedSegments cache assigned ingestCache rest
    | some inews =>
      WatcherEvent.segmentCreate rid sid
          (inewsToIngestSegment rid sid inews (resolveEmittedRank assigned ingestCache sid)) ::
        emitCreatedSegments cache assigned ingestCache rest

/-- Source `updatedRanks` (part_001 lines 663-680): coalesce remaining moved segments
into one rank map per rundown. -/
def buildUpdatedRanks (assigned : List (String × Rat))
    (ingestCache : List (String × RundownSegment)) :
    List (String × String) → List (String × List (String × Rat)) →
      List (String × List (String × Rat))
  | [], acc => acc
  | (rid, sid) :: rest, acc =>
    let rank := resolveEmittedRank assigned ingestCache sid
    let rr := (mget acc rid).getD []
    buildUpdatedRanks assigned ingestCache rest (mset acc rid (mset rr sid rank))

/-- The coalesced rank maps of this poll. -/
def updatedRanksMap (i : PollIn σ) : List (String × List (String × Rat)) :=
  buildUpdatedRanks (assignedRanks i) (ingestCacheData i) (segListsFinal i).moved []

/-- All events of one `processUpdatedRundown` call, in emission order
(part_001 lines 536-684). -/
def pollEvents (i : PollIn σ) : List WatcherEvent :=
  deletedRundownEvents (deletedRundownIds i) ++
    (deletedSegmentEvents (segListsAfterDeleted i).deleted ++
      (createdRundownEvents i.playlistId (playlistAssignments i) (inewsCacheAfterFetch i)
          (assignedRanks i) (createdRundownIds i) ++
        (updatedRundownEvents i.playlistId (playlistAssignments i) (inewsCacheAfterFetch i)
            (assignedRanks i) (updatedRundownIds i) ++
          (emitChangedSegments (inewsCacheAfterFetch i) (assignedRanks i) (ingestCacheData i)
              (segListsFinal i).changed ++
            (emitCreatedSegments (inewsCacheAfterFetch i) (assignedRanks i) (ingestCacheData i)
                (segListsFinal i).created ++
              (updatedRanksMap i).map (fun p => WatcherEvent.segmentRanksUpdate p.1 p.2))))))

/-- The caches after one `processUpdatedRundown` call. -/
def pollState (i : PollIn σ) : WatcherState where
  previousRanks := previousRanksAfter i
  lastForcedRankRecalculation := lastForcedAfter i
  cachedINewsData := inewsCacheAfterFetch i
  cachedPlaylistAssignments :=
    mset i.state.cachedPlaylistAssignments i.playlistId (playlistAssignments i)
  cachedAssignedRundowns :=
    mset i.state.cachedAssignedRundowns i.playlistId (assignedRundowns i)
  skipCacheForRundown := skipAfterConsume i
  playlists := playlistsCacheAfter i
  rundowns := rundownsCacheAfter i
  segments := segmentsCacheAfter i

/-- Source `processUpdatedRundown` (part_001 lines 340-685): the new caches and the
emitted events. -/
def processPoll (i : PollIn σ) : WatcherState × List WatcherEvent :=
  (pollState i, pollEvents i)

/-! ## `ResyncRundown` (part_001 lines 285-318) -/

/-- The regex replace of part_001 line 287: drop a trailing underscore followed
by one or more digits. -/
def stripRundownSuffix (rid : String) : String :=
  let rev := rid.data.reverse
  let digits := rev.takeWhile (fun c => c.isDigit)
  match digits, rev.drop digits.length with
  | [], _ => rid
  | _ :: _, c :: rest => if c = '_' then String.mk rest.reverse else rid
  | _ :: _, [] => rid

/-- Source `ResyncRundown` (part_001 lines 285-318). -/
def ResyncRundown (rundownExternalId : String) (st : WatcherState) : WatcherState :=
  let playlistExternalId := stripRundownSuffix rundownExternalId
  match mget st.playlists playlistExternalId, mget st.rundowns rundownExternalId with
  | some playlist, some rundown =>
    { st with
      segments := rundown.foldl (fun m sid => mdel m sid) st.segments,
      cachedINewsData := rundown.foldl (fun m sid => mdel m sid) st.cachedINewsData,
      rundowns := mdel st.rundowns rundownExternalId,
      playlists := mset st.playlists playlistExternalId
        (playlist.filter (fun r => r != rundownExternalId)),
      cachedPlaylistAssignments :=
        match mget st.cachedPlaylistAssignments playlistExternalId with
        | some cachedPlaylist =>
          mset st.cachedPlaylistAssignments playlistExternalId
            (cachedPlaylist.filter (fun p => p.rundownId != rundownExternalId))
        | none => st.cachedPlaylistAssignments,
      lastForcedRankRecalculation := mdel st.lastForcedRankRecalculation rundownExternalId,
      skipCacheForRundown := sadd st.skipCacheForRundown rundownExternalId }
  | _, _ => st

/-! ## The watch loop (part_001 lines 236-260 and 320-338)

`downloadRundown` is external I/O: each queue's download outcome is an input.
Inside `checkINewsRundownById` the version gate of line 328 guards all
processing, and any `processUpdatedRundown` error is caught and only logged
(lines 330-335), so a poll only fails when a download fails. -/

/-- The `PollIn` built by `checkINewsRundownById`: the downloaded rundown's
external id is used as the playlist id (part_001 line 331). -/
def pollInput (env : Env σ) (gatewayVersion : String) (rundown : ReducedRundown)
    (st : WatcherState) : PollIn σ :=
  { env := env, gatewayVersion := gatewayVersion, playlistId := rundown.externalId,
    playlist := rundown, state := st }

/-- Source `checkINewsRundownById` (part_001 lines 326-338), given the download
outcome for the queue. -/
def checkINewsRundownById (env : Env σ) (gatewayVersion : String)
    (download : Except Unit ReducedRundown) (st : WatcherState) :
    Except Unit (WatcherState × List WatcherEvent) :=
  match download with
  | .error e => .error e
  | .ok rundown =>
    if rundown.gatewayVersion = gatewayVersion then
      .ok (processPoll (pollInput env gatewayVersion rundown st))
    else .ok (st, [])

/-- Source `checkINewsRundowns` (part_001 lines 320-324): the queues in configured
order; a failed download aborts the remaining queues but keeps the state and
events produced so far.  The boolean records whether every queue succeeded. -/
def runQueues (env : Env σ) (gatewayVersion : String) :
    List (Except Unit ReducedRundown) → WatcherState →
      WatcherState × List WatcherEvent × Bool
  | [], st => (st, [], true)
  | d :: rest, st =>
    match checkINewsRundownById env gatewayVersion d st with
    | .error _ => (st, [], false)
    | .ok (st2, evs) =>
      let (st3, evs2, ok) := runQueues env gatewayVersion rest st2
      (st3, evs ++ evs2, ok)

/-- Source `watch` (part_001 lines 236-260): run all queues, then report `GOOD` on
success — but only when the FTP handler is connected — and `WARNING_MAJOR` on
failure.  The result is the new state, the emitted events, and the status codes
reported to the control plane. -/
def watchOnce (env : Env σ) (gatewayVersion : String) (isConnected : Bool)
    (downloads : List (Except Unit ReducedRundown)) (st : WatcherState) :
    WatcherState × List WatcherEvent × List StatusCode :=
  let r := runQueues env gatewayVersion downloads st
  (r.1, r.2.1,
    if r.2.2 then (if isConnected then [StatusCode.good] else [])
    else [StatusCode.warningMajor])

/-! ## Map and set lemmas -/

theorem mget_mset_self {α : Type} (m : List (String × α)) (k : String) (v : α) :
    mget (mset m k v) k = some v := by
  induction m with
  | nil => simp [mset, mget]
  | cons p rest ih =>
    obtain ⟨pk, pv⟩ := p
    by_cases h : pk = k
    · subst h
      simp [mset, mget]
    · simp [mset, mget, h, ih]

theorem mget_mset_ne {α : Type} (m : List (String × α)) (k k' : String) (v : α)
    (h : k' ≠ k) : mget (mset m k v) k' = mget m k' := by
  have hk : ¬ k = k' := fun e => h e.symm
  induction m with
  | nil => simp [mset, mget, hk]
  | cons p rest ih =>
    obtain ⟨pk, pv⟩ := p
    by_cases hp : pk = k
    · subst hp
      simp [mset, mget, hk]
    · simp [mset, mget, hp, ih]

theorem mget_mdel_self {α : Type} (m : List (String × α)) (k : String) :
    mget (mdel m k) k = none := by
  induction m with
  | nil => rfl
  | cons p rest ih =>
    obtain ⟨pk, pv⟩ := p
    by_cases h : pk = k
    · subst h
      simpa [mdel, List.filter_cons] using ih
    · simpa [mdel, List.filter_cons, bne_iff_ne.mpr h, mget, h] using ih

theorem mget_none_mdel {α : Type} (m : List (String × α)) (k k' : String)
    (h : mget m k = none) : mget (mdel m k') k = none := by
  induction m with
  | nil => rfl
  | cons p rest ih =>
    obtain ⟨pk, pv⟩ := p
    by_cases hp : pk = k
    · subst hp
      simp [mget] at h
    · simp only [mget, if_neg hp] at h
      by_cases hk : pk = k'
      · subst hk
        simpa [mdel, List.filter_cons] using ih h
      · simpa [mdel, List.filter_cons, bne_iff_ne.mpr hk, mget, hp] using ih h

theorem mget_mdel_ne {α : Type} (m : List (String × α)) (k k' : String)
    (h : k' ≠ k) : mget (mdel m k) k' = mget m k' := by
  induction m with
  | nil => rfl
  | cons p rest ih =>
    obtain ⟨pk, pv⟩ := p
    by_cases hp : pk = k
    · subst hp
      have hk : ¬ pk = k' := fun e => h e.symm
      simpa [mdel, List.filter_cons, mget, hk] using ih
    · have ih2 := ih
      simp only [mdel] at ih2
      simp [mdel, List.filter_cons, bne_iff_ne.mpr hp, mget, ih2]

theorem mget_foldl_mdel_none {α : Type} (l : List String) (m : List (String × α))
    (k : String) (h : mget m k = none) :
    mget (l.foldl (fun m sid => mdel m sid) m) k = none := by
  induction l generalizing m with
  | nil => exact h
  | cons x rest ih => exact ih _ (mget_none_mdel m k x h)

theorem mget_foldl_mdel {α : Type} (l : List String) (m : List (String × α))
    (k : String) (h : k ∈ l) :
    mget (l.foldl (fun m sid => mdel m sid) m) k = none := by
  induction l generalizing m with
  | nil => cases h
  | cons x rest ih =>
    rcases List.mem_cons.mp h with rfl | hmem
    · exact mget_foldl_mdel_none rest _ k (mget_mdel_self m k)
    · exact ih _ hmem

theorem mem_sadd (s : List String) (x y : String) :
    y ∈ sadd s x ↔ y ∈ s ∨ y = x := by
  unfold sadd
  by_cases h : x ∈ s
  · simp only [if_pos h]
    constructor
    · exact Or.inl
    · rintro (hy | rfl) <;> [exact hy; exact h]
  · simp [if_neg h]

theorem mem_sdel (s : List String) (x y : String) :
    y ∈ sdel s x ↔ y ∈ s ∧ y ≠ x := by
  simp [sdel, List.mem_filter, bne_iff_ne]

theorem mget_some_mem {α : Type} (m : List (String × α)) (k : String) (v : α)
    (h : mget m k = some v) : (k, v) ∈ m := by
  induction m with
  | nil => simp [mget] at h
  | cons p rest ih =>
    obtain ⟨pk, pv⟩ := p
    by_cases hp : pk = k
    · subst hp
      have h2 : pv = v := by simpa [mget] using h
      subst h2
      exact List.mem_cons_self _ _
    · simp only [mget, if_neg hp] at h
      exact List.mem_cons_of_mem _ (ih h)

theorem mem_keys_mset {α : Type} (m : List (String × α)) (k x : String) (v : α) :
    x ∈ (mset m k v).map Prod.fst ↔ x ∈ m.map Prod.fst ∨ x = k := by
  induction m with
  | nil => simp [mset]
  | cons p rest ih =>
    obtain ⟨pk, pv⟩ := p
    by_cases hp : pk = k
    · subst hp
      simp [mset]
      tauto
    · simp only [mset, if_neg hp, List.map_cons, List.mem_cons, ih]
      tauto

theorem keys_nodup_mset {α : Type} (m : List (String × α)) (k : String) (v : α)
    (h : (m.map Prod.fst).Nodup) : ((mset m k v).map Prod.fst).Nodup := by
  induction m with
  | nil => simp [mset]
  | cons p rest ih =>
    obtain ⟨pk, pv⟩ := p
    simp only [List.map_cons, List.nodup_cons] at h
    by_cases hp : pk = k
    · subst hp
      simpa [mset, List.nodup_cons] using h
    · simp only [mset, if_neg hp, List.map_cons, List.nodup_cons]
      refine ⟨fun hmem => ?_, ih h.2⟩
      rcases (mem_keys_mset rest k pk v).mp hmem with hmem | rfl
      · exact h.1 hmem
      · exact hp rfl

theorem mget_eq_some_of_mem_nodup {α : Type} (m : List (String × α)) (k : String)
    (v : α) (hmem : (k, v) ∈ m) (hnd : (m.map Prod.fst).Nodup) :
    mget m k = some v := by
  induction m with
  | nil => cases hmem
  | cons p rest ih =>
    obtain ⟨pk, pv⟩ := p
    simp only [List.map_cons, List.nodup_cons] at hnd
    rcases List.mem_cons.mp hmem with h | h
    · cases h
      simp [mget]
    · have hk : ¬ pk = k := by
        intro hp
        subst hp
        exact hnd.1 (List.mem_map_of_mem Prod.fst h)
      simp only [mget, if_neg hk]
      exact ih h hnd.2

theorem mget_mergeFetched_not_mem {α : Type} (fetched : List (String × α))
    (m : List (String × α)) (k : String) (h : k ∉ fetched.map Prod.fst) :
    mget (mergeFetched m fetched) k = mget m k := by
  induction fetched generalizing m with
  | nil => rfl
  | cons p rest ih =>
    simp only [List.map_cons, List.mem_cons, not_or] at h
    show mget (mergeFetched (mset m p.1 p.2) rest) k = mget m k
    rw [ih _ h.2, mget_mset_ne m p.1 k p.2 h.1]

theorem mget_mergeFetched_mem {α : Type} (fetched : List (String × α))
    (m : List (String × α)) (k : String) (v : α)
    (hnd : (fetched.map Prod.fst).Nodup) (hmem : (k, v) ∈ fetched) :
    mget (mergeFetched m fetched) k = some v := by
  induction fetched generalizing m with
  | nil => cases hmem
  | cons p rest ih =>
    simp only [List.map_cons, List.nodup_cons] at hnd
    rcases List.mem_cons.mp hmem with h | h
    · cases h
      show mget (mergeFetched (mset m k v) rest) k = some v
      rw [mget_mergeFetched_not_mem rest _ k hnd.1, mget_mset_self]
    · show mget (mergeFetched (mset m p.1 p.2) rest) k = some v
      exact ih _ hnd.2 h

/-! ## Concrete fixtures used by witnesses and counterexamples -/

/-- The fully empty cache state (the state at watcher construction). -/
def emptyState : WatcherState :=
  { previousRanks := [], lastForcedRankRecalculation := [], cachedINewsData := [],
    cachedPlaylistAssignments := [], cachedAssignedRundowns := [],
    skipCacheForRundown := [], playlists := [], rundowns := [], segments := [] }

/-- Collaborators that return nothing. -/
def trivEnv : Env Unit :=
  { fetchINewsStoriesById := fun _ _ => [],
    getSegmentsCacheById := fun _ _ => [],
    resolveRundownIntoPlaylist := fun _ _ => [],
    diffPlaylist := fun _ _ => ([], ()),
    assignRanksToSegments := fun _ _ _ _ _ => [],
    now := 0 }

/-- A downloaded rundown tagged with gateway version "x". -/
def mismatchRundown : ReducedRundown :=
  { externalId := "Q", name := "Q", gatewayVersion := "x", segments := [] }

/-- An empty downloaded rundown tagged with gateway version "v". -/
def emptyRundownV : ReducedRundown :=
  { externalId := "Q", name := "Q", gatewayVersion := "v", segments := [] }

/-! ## Watch-level lemmas -/

/-- A poll's success flag is true exactly when every queue download succeeded:
version mismatches and processing problems are not failures (part_001 lines
326-338). -/
theorem runQueues_flag {σ : Type} (env : Env σ) (gv : String)
    (downloads : List (Except Unit ReducedRundown)) (st : WatcherState) :
    (runQueues env gv downloads st).2.2 = true ↔
      ∀ d ∈ downloads, ∃ r, d = Except.ok r := by
  induction downloads generalizing st with
  | nil => simp [runQueues]
  | cons d rest ih =>
    cases d with
    | error e => simp [runQueues, checkINewsRundownById]
    | ok r =>
      by_cases hv : r.gatewayVersion = gv
      · simp [runQueues, checkINewsRundownById, hv, ih]
      · simp [runQueues, checkINewsRundownById, hv, ih]

/-! ## Claim C10 -/

/-- C10: calling `ResyncRundown` with a rundown id whose derived playlist is
absent from the playlists cache, or whose id is absent from the rundowns
cache, changes no state at all. -/
theorem resyncMissingIsNoop (rid : String) (st : WatcherState)
    (h : mget st.playlists (stripRundownSuffix rid) = none ∨
      mget st.rundowns rid = none) :
    ResyncRundown rid st = st := by
  rcases h with h | h
  · cases hr : mget st.rundowns rid <;> simp [ResyncRundown, h, hr]
  · cases hp : mget st.playlists (stripRundownSuffix rid) <;>
      simp [ResyncRundown, h, hp]

/-- Witness for C10 at a concrete input: empty caches. -/
theorem resyncMissingIsNoopWitness : ResyncRundown "A_1" emptyState = emptyState :=
  resyncMissingIsNoop "A_1" emptyState (Or.inl rfl)

/-! ## Claim C1 -/

/-- C1 (amended): when the downloaded rundown's `gatewayVersion` differs from
the configured version, the poll of that queue emits no events and leaves the
whole cache state unchanged, and a single-queue poll still reports GOOD
provided the FTP handler is connected. -/
theorem versionMismatchSilent {σ : Type} (env : Env σ) (gatewayVersion : String)
    (rundown : ReducedRundown) (st : WatcherState)
    (h : rundown.gatewayVersion ≠ gatewayVersion) :
    checkINewsRundownById env gatewayVersion (Except.ok rundown) st =
      Except.ok (st, []) ∧
    watchOnce env gatewayVersion true [Except.ok rundown] st =
      (st, [], [StatusCode.good]) := by
  have hc : checkINewsRundownById env gatewayVersion (Except.ok rundown) st =
      Except.ok (st, []) := by
    simp [checkINewsRundownById, h]
  exact ⟨hc, by simp [watchOnce, runQueues, hc]⟩

/-- Witness for C1 at a concrete input. -/
theorem versionMismatchSilentWitness :
    checkINewsRundownById trivEnv "y" (Except.ok mismatchRundown) emptyState =
      Except.ok (emptyState, []) ∧
    watchOnce trivEnv "y" true [Except.ok mismatchRundown] emptyState =
      (emptyState, [], [StatusCode.good]) :=
  versionMismatchSilent trivEnv "y" mismatchRundown emptyState (by decide)

/-- C1 counterexample to the claim as stated: with the FTP handler
disconnected, a mismatch poll completes without reporting any status, so no
GOOD status is reported to the control plane. -/
theorem versionMismatchSilentCex :
    StatusCode.good ∉
      (watchOnce trivEnv "y" false [Except.ok mismatchRundown] emptyState).2.2 := by
  decide

/-! ## Claim C9 -/

/-- C9 (amended): after each poll cycle the watcher reports GOOD when every
queue download succeeded and the FTP handler is connected (and reports nothing
when it is disconnected), and reports WARNING_MAJOR when a download failed. -/
theorem pollStatusReporting {σ : Type} (env : Env σ) (gv : String) (conn : Bool)
    (downloads : List (Except Unit ReducedRundown)) (st : WatcherState) :
    ((∀ d ∈ downloads, ∃ r, d = Except.ok r) →
      (watchOnce env gv conn downloads st).2.2 =
        if conn then [StatusCode.good] else []) ∧
    ((¬ ∀ d ∈ downloads, ∃ r, d = Except.ok r) →
      (watchOnce env gv conn downloads st).2.2 = [StatusCode.warningMajor]) := by
  constructor
  · intro h
    have hf : (runQueues env gv downloads st).2.2 = true :=
      (runQueues_flag env gv downloads st).mpr h
    simp [watchOnce, hf]
  · intro h
    have hf : (runQueues env gv downloads st).2.2 = false := by
      rcases Bool.eq_false_or_eq_true (runQueues env gv downloads st).2.2 with hb | hb
      · exact absurd ((runQueues_flag env gv downloads st).mp hb) h
      · exact hb
    simp [watchOnce, hf]

/-- Witness for C9 at a concrete input: a successful connected poll reports
exactly GOOD. -/
theorem pollStatusReportingWitness :
    (watchOnce trivEnv "v" true [Except.ok emptyRundownV] emptyState).2.2 =
      [StatusCode.good] := by
  have h := (pollStatusReporting trivEnv "v" true [Except.ok emptyRundownV] emptyState).1
  simpa using h (by
    intro d hd
    rw [List.mem_singleton] at hd
    exact ⟨emptyRundownV, hd⟩)

/-- C9 counterexample to the claim as stated: a successful poll with the FTP
handler disconnected reports no status at all, in particular not GOOD. -/
theorem pollStatusReportingCex :
    StatusCode.good ∉
      (watchOnce trivEnv "v" false [Except.ok emptyRundownV] emptyState).2.2 := by
  decide

/-! ## Claim C4 -/

/-- C4: when the resolver returns an empty list the poll proceeds with exactly
one rundown `playlistId ++ "_1"` with no segments — it is recorded as the
playlist's only rundown in every cache — and the poll is not an error: a
successful single-queue poll still reports GOOD. -/
theorem resolverEmptyFallback {σ : Type} (env : Env σ) (gv : String)
    (pl : ReducedRundown) (st : WatcherState)
    (h : resolverOutput (pollInput env gv pl st) = []) :
    playlistAssignments (pollInput env gv pl st) =
      [{ rundownId := pl.externalId ++ "_1", segments := [], backTime := none }] ∧
    mget (pollState (pollInput env gv pl st)).playlists pl.externalId =
      some [pl.externalId ++ "_1"] ∧
    mget (pollState (pollInput env gv pl st)).cachedPlaylistAssignments pl.externalId =
      some [{ rundownId := pl.externalId ++ "_1", segments := [], backTime := none }] ∧
    mget (pollState (pollInput env gv pl st)).rundowns (pl.externalId ++ "_1") =
      some [] ∧
    (watchOnce env pl.gatewayVersion true [Except.ok pl] st).2.2 =
      [StatusCode.good] := by
  have hpa : playlistAssignments (pollInput env gv pl st) =
      [{ rundownId := pl.externalId ++ "_1", segments := [], backTime := none }] := by
    unfold playlistAssignments
    rw [h]
    rfl
  refine ⟨hpa, ?_, ?_, ?_, ?_⟩
  · show mget (mset st.playlists pl.externalId
        ((playlistAssignments (pollInput env gv pl st)).map (fun r => r.rundownId)))
      pl.externalId = _
    rw [hpa]
    exact mget_mset_self _ _ _
  · show mget (mset st.cachedPlaylistAssignments pl.externalId
        (playlistAssignments (pollInput env gv pl st))) pl.externalId = _
    rw [hpa]
    exact mget_mset_self _ _ _
  · show mget ((playlistAssignments (pollInput env gv pl st)).foldl
        (fun m r => mset m r.rundownId r.segments) st.rundowns)
      (pl.externalId ++ "_1") = _
    rw [hpa]
    exact mget_mset_self _ _ _
  · have hf : (runQueues env pl.gatewayVersion [Except.ok pl] st).2.2 = true :=
      (runQueues_flag _ _ _ _).mpr (by
        intro d hd
        rw [List.mem_singleton] at hd
        exact ⟨pl, hd⟩)
    simp [watchOnce, hf]

/-- Witness for C4 at a concrete input. -/
theorem resolverEmptyFallbackWitness :
    playlistAssignments (pollInput trivEnv "v" emptyRundownV emptyState) =
      [{ rundownId := "Q" ++ "_1", segments := [], backTime := none }] ∧
    mget (pollState (pollInput trivEnv "v" emptyRundownV emptyState)).playlists "Q" =
      some ["Q" ++ "_1"] ∧
    (watchOnce trivEnv "v" true [Except.ok emptyRundownV] emptyState).2.2 =
      [StatusCode.good] := by
  have h := resolverEmptyFallback trivEnv "v" emptyRundownV emptyState rfl
  exact ⟨h.1, h.2.1, h.2.2.2.2⟩

/-! ## Skip-flag lemmas (part_001 lines 410-424) -/

theorem consumeSkipFlags_not_mem_mono (pa : List PlaylistRundown)
    (skip : List String) (x : String) (h : x ∉ skip) :
    x ∉ consumeSkipFlags pa skip := by
  induction pa generalizing skip with
  | nil => exact h
  | cons r rest ih =>
    by_cases hr : r.rundownId ∈ skip
    · simp only [consumeSkipFlags, if_pos hr]
      exact ih _ (fun hx => h ((mem_sdel skip r.rundownId x).mp hx).1)
    · simp only [consumeSkipFlags, if_neg hr]
      exact ih _ h

theorem not_mem_consumeSkipFlags (pa : List PlaylistRundown) (skip : List String)
    (rid : String) (hmem : rid ∈ pa.map (fun r => r.rundownId))
    (hnd : (pa.map (fun r => r.rundownId)).Nodup) :
    rid ∉ consumeSkipFlags pa skip := by
  induction pa generalizing skip with
  | nil => cases hmem
  | cons r rest ih =>
    simp only [List.map_cons, List.nodup_cons] at hnd
    rcases List.mem_cons.mp hmem with heq | hmem2
    · by_cases hr : r.rundownId ∈ skip
      · simp only [consumeSkipFlags, if_pos hr]
        refine consumeSkipFlags_not_mem_mono rest _ rid (fun hx => ?_)
        exact ((mem_sdel skip r.rundownId rid).mp hx).2 heq
      · simp only [consumeSkipFlags, if_neg hr]
        refine consumeSkipFlags_not_mem_mono rest _ rid (fun hx => ?_)
        have heq2 : rid = r.rundownId := heq
        exact hr (heq2 ▸ hx)
    · by_cases hr : r.rundownId ∈ skip
      · simp only [consumeSkipFlags, if_pos hr]
        exact ih _ hmem2 hnd.2
      · simp only [consumeSkipFlags, if_neg hr]
        exact ih _ hmem2 hnd.2

theorem ingestCacheCalls_ids_subset (uncached : List String)
    (pa : List PlaylistRundown) (skip : List String) :
    ∀ c ∈ ingestCacheCalls uncached pa skip,
      c.1 ∈ pa.map (fun r => r.rundownId) := by
  induction pa generalizing skip with
  | nil => intro c hc; cases hc
  | cons r rest ih =>
    intro c hc
    by_cases hr : r.rundownId ∈ skip
    · simp only [ingestCacheCalls, if_pos hr] at hc
      exact List.mem_cons_of_mem _ (ih _ c hc)
    · simp only [ingestCacheCalls, if_neg hr] at hc
      rcases List.mem_cons.mp hc with rfl | hc2
      · exact List.mem_cons_self _ _
      · exact List.mem_cons_of_mem _ (ih _ c hc2)

theorem ingestCacheCalls_skip_ne (uncached : List String)
    (pa : List PlaylistRundown) (skip : List String) (rid : String)
    (h1 : rid ∈ skip) (hnd : (pa.map (fun r => r.rundownId)).Nodup) :
    ∀ c ∈ ingestCacheCalls uncached pa skip, c.1 ≠ rid := by
  induction pa generalizing skip with
  | nil => intro c hc; cases hc
  | cons r rest ih =>
    simp only [List.map_cons, List.nodup_cons] at hnd
    intro c hc
    by_cases hr : r.rundownId ∈ skip
    · simp only [ingestCacheCalls, if_pos hr] at hc
      by_cases he : r.rundownId = rid
      · intro hcrid
        have hin := ingestCacheCalls_ids_subset uncached rest
          (sdel skip r.rundownId) c hc
        rw [hcrid, ← he] at hin
        exact hnd.1 hin
      · refine ih _ ((mem_sdel skip r.rundownId rid).mpr
          ⟨h1, fun e => he e.symm⟩) hnd.2 c hc
    · simp only [ingestCacheCalls, if_neg hr] at hc
      rcases List.mem_cons.mp hc with rfl | hc2
      · intro hcrid
        have he : r.rundownId = rid := hcrid
        rw [he] at hr
        exact hr h1
      · exact ih _ h1 hnd.2 c hc2

/-! ## Claim C8 -/

/-- C8: for a rundown present in the caches, `ResyncRundown` removes its
segments from the segment and iNews caches, removes it from the rundown cache,
its playlist's rundown list and the cached playlist assignment, clears its
last forced rank recalculation, and arms the skip-cache flag; any later poll
whose resolved assignments contain the rundown consumes the flag and issues no
control-plane cache fetch for it. -/
theorem resyncRundownSpec (rid : String) (st : WatcherState)
    (pl : List String) (segs : List String)
    (hp : mget st.playlists (stripRundownSuffix rid) = some pl)
    (hr : mget st.rundowns rid = some segs) :
    (∀ sid ∈ segs, mget (ResyncRundown rid st).segments sid = none) ∧
    (∀ sid ∈ segs, mget (ResyncRundown rid st).cachedINewsData sid = none) ∧
    mget (ResyncRundown rid st).rundowns rid = none ∧
    mget (ResyncRundown rid st).playlists (stripRundownSuffix rid) =
      some (pl.filter (fun r => r != rid)) ∧
    (∀ a, mget (ResyncRundown rid st).cachedPlaylistAssignments
        (stripRundownSuffix rid) = some a → ∀ r ∈ a, r.rundownId ≠ rid) ∧
    mget (ResyncRundown rid st).lastForcedRankRecalculation rid = none ∧
    rid ∈ (ResyncRundown rid st).skipCacheForRundown ∧
    (∀ (τ : Type) (env : Env τ) (gv : String) (pl2 : ReducedRundown)
        (st2 : WatcherState),
      rid ∈ st2.skipCacheForRundown →
      rid ∈ (playlistAssignments (pollInput env gv pl2 st2)).map
        (fun r => r.rundownId) →
      ((playlistAssignments (pollInput env gv pl2 st2)).map
        (fun r => r.rundownId)).Nodup →
      rid ∉ (pollState (pollInput env gv pl2 st2)).skipCacheForRundown ∧
      ∀ c ∈ cacheFetchCalls (pollInput env gv pl2 st2), c.1 ≠ rid) := by
  have hstep : ResyncRundown rid st = { st with
      segments := segs.foldl (fun m sid => mdel m sid) st.segments,
      cachedINewsData := segs.foldl (fun m sid => mdel m sid) st.cachedINewsData,
      rundowns := mdel st.rundowns rid,
      playlists := mset st.playlists (stripRundownSuffix rid)
        (pl.filter (fun r => r != rid)),
      cachedPlaylistAssignments :=
        match mget st.cachedPlaylistAssignments (stripRundownSuffix rid) with
        | some cached => mset st.cachedPlaylistAssignments (stripRundownSuffix rid)
            (cached.filter (fun p => p.rundownId != rid))
        | none => st.cachedPlaylistAssignments,
      lastForcedRankRecalculation := mdel st.lastForcedRankRecalculation rid,
      skipCacheForRundown := sadd st.skipCacheForRundown rid } := by
    simp only [ResyncRundown]
    rw [hp, hr]
  rw [hstep]
  refine ⟨?_, ?_, ?_, ?_, ?_, ?_, ?_, ?_⟩
  · intro sid hs
    exact mget_foldl_mdel segs _ sid hs
  · intro sid hs
    exact mget_foldl_mdel segs _ sid hs
  · exact mget_mdel_self _ _
  · exact mget_mset_self _ _ _
  · intro a ha r hra
    cases hcpa : mget st.cachedPlaylistAssignments (stripRundownSuffix rid) with
    | none =>
      rw [show (match mget st.cachedPlaylistAssignments (stripRundownSuffix rid) with
          | some cached => mset st.cachedPlaylistAssignments (stripRundownSuffix rid)
              (cached.filter (fun p => p.rundownId != rid))
          | none => st.cachedPlaylistAssignments) =
            st.cachedPlaylistAssignments from by rw [hcpa]] at ha
      rw [hcpa] at ha
      cases ha
    | some cached =>
      rw [show (match mget st.cachedPlaylistAssignments (stripRundownSuffix rid) with
          | some cached => mset st.cachedPlaylistAssignments (stripRundownSuffix rid)
              (cached.filter (fun p => p.rundownId != rid))
          | none => st.cachedPlaylistAssignments) =
            mset st.cachedPlaylistAssignments (stripRundownSuffix rid)
              (cached.filter (fun p => p.rundownId != rid)) from by rw [hcpa]] at ha
      rw [mget_mset_self] at ha
      cases ha
      exact bne_iff_ne.mp (List.mem_filter.mp hra).2
  · exact mget_mdel_self _ _
  · exact (mem_sadd _ _ _).mpr (Or.inr rfl)
  · intro τ env gv pl2 st2 hskip hmem hnd
    constructor
    · show rid ∉ consumeSkipFlags (playlistAssignments (pollInput env gv pl2 st2))
        st2.skipCacheForRundown
      exact not_mem_consumeSkipFlags _ _ rid hmem hnd
    · show ∀ c ∈ ingestCacheCalls (uncachedSet (pollInput env gv pl2 st2))
        (playlistAssignments (pollInput env gv pl2 st2))
        st2.skipCacheForRundown, c.1 ≠ rid
      exact ingestCacheCalls_skip_ne _ _ _ rid hskip hnd

/-! ## More fixtures -/

/-- A concrete opaque story. -/
def story1 : INewsStory := { meta := { float := false }, body := "body one" }

/-- A concrete fetched story with external id "s1" and locator "loc1". -/
def unr1 : UnrankedSegment :=
  { rundownId := "P", externalId := "s1", name := "story one", modified := 0,
    locator := "loc1", iNewsStory := story1 }

/-- The listing snapshot of `unr1`. -/
def red1 : ReducedSegment :=
  { externalId := "s1", name := "story one", modified := 0, rank := 0,
    locator := "loc1" }

/-- A downloaded listing for queue "P" with one segment. -/
def rundownP : ReducedRundown :=
  { externalId := "P", name := "P", gatewayVersion := "v", segments := [] }

/-- A cache state in which playlist "P" owns rundown "P_1" with segment "s1". -/
def stW : WatcherState :=
  { previousRanks := [], lastForcedRankRecalculation := [("P_1", 5)],
    cachedINewsData := [("s1", unr1)],
    cachedPlaylistAssignments :=
      [("P", [{ rundownId := "P_1", segments := ["s1"], backTime := none }])],
    cachedAssignedRundowns := [], skipCacheForRundown := [],
    playlists := [("P", ["P_1"])], rundowns := [("P_1", ["s1"])],
    segments := [("s1", red1)] }

/-- Witness for C8 at a concrete input: resync "P_1" in `stW`, then poll. -/
theorem resyncRundownSpecWitness :
    mget (ResyncRundown "P_1" stW).segments "s1" = none ∧
    mget (ResyncRundown "P_1" stW).cachedINewsData "s1" = none ∧
    mget (ResyncRundown "P_1" stW).rundowns "P_1" = none ∧
    mget (ResyncRundown "P_1" stW).lastForcedRankRecalculation "P_1" = none ∧
    "P_1" ∈ (ResyncRundown "P_1" stW).skipCacheForRundown ∧
    "P_1" ∉ (pollState
      (pollInput trivEnv "v" rundownP (ResyncRundown "P_1" stW))).skipCacheForRundown := by
  have h := resyncRundownSpec "P_1" stW ["P_1"] ["s1"] (by decide) (by decide)
  refine ⟨h.1 "s1" (by decide), h.2.1 "s1" (by decide), h.2.2.1,
    h.2.2.2.2.2.1, h.2.2.2.2.2.2.1, ?_⟩
  exact (h.2.2.2.2.2.2.2 Unit trivEnv "v" rundownP (ResyncRundown "P_1" stW)
    (by decide) (by decide) (by decide)).1

/-! ## Claim C5 -/

theorem mem_addMatching (p : ReducedSegment → Bool) (segs : List ReducedSegment)
    (acc : List String) (x : String) :
    x ∈ addMatching p segs acc ↔
      x ∈ acc ∨ ∃ s ∈ segs, s.externalId = x ∧ p s = true := by
  induction segs generalizing acc with
  | nil => simp [addMatching]
  | cons s rest ih =>
    show x ∈ addMatching p rest (if p s then sadd acc s.externalId else acc) ↔ _
    rw [ih]
    by_cases hp : p s = true
    · simp only [if_pos hp, mem_sadd]
      constructor
      · rintro ((hx | rfl) | hrest)
        · exact Or.inl hx
        · exact Or.inr ⟨s, List.mem_cons_self _ _, rfl, hp⟩
        · rcases hrest with ⟨t, ht, he, hpt⟩
          exact Or.inr ⟨t, List.mem_cons_of_mem _ ht, he, hpt⟩
      · rintro (hx | ⟨t, ht, he, hpt⟩)
        · exact Or.inl (Or.inl hx)
        · rcases List.mem_cons.mp ht with rfl | ht2
          · exact Or.inl (Or.inr he.symm)
          · exact Or.inr ⟨t, ht2, he, hpt⟩
    · simp only [if_neg hp]
      constructor
      · rintro (hx | ⟨t, ht, he, hpt⟩)
        · exact Or.inl hx
        · exact Or.inr ⟨t, List.mem_cons_of_mem _ ht, he, hpt⟩
      · rintro (hx | ⟨t, ht, he, hpt⟩)
        · exact Or.inl hx
        · rcases List.mem_cons.mp ht with rfl | ht2
          · exact absurd hpt hp
          · exact Or.inr ⟨t, ht2, he, hpt⟩

theorem bool_not_isSome_iff {α : Type} (o : Option α) :
    ((!o.isSome) = true) ↔ o = none := by
  cases o <;> simp

theorem mem_uncachedSet {σ : Type} (i : PollIn σ) (x : String) :
    x ∈ uncachedSet i ↔
      ((∃ s ∈ i.playlist.segments, s.externalId = x ∧
          mget i.state.cachedINewsData x = none) ∨
       ((mget i.state.playlists i.playlistId).isSome = true ∧
        ∃ s ∈ i.playlist.segments, s.externalId = x ∧
          staleInSegmentsCache i.state.segments s = true)) := by
  have hfirst : ∀ acc0 : List String, x ∈ addMatching
      (fun s => !(mget i.state.cachedINewsData s.externalId).isSome)
      i.playlist.segments acc0 ↔ x ∈ acc0 ∨
        ∃ s ∈ i.playlist.segments, s.externalId = x ∧
          mget i.state.cachedINewsData x = none := by
    intro acc0
    rw [mem_addMatching]
    constructor
    · rintro (hx | ⟨t, ht, he, hpt⟩)
      · exact Or.inl hx
      · refine Or.inr ⟨t, ht, he, ?_⟩
        rw [← he]
        exact (bool_not_isSome_iff _).mp hpt
    · rintro (hx | ⟨t, ht, he, hc⟩)
      · exact Or.inl hx
      · refine Or.inr ⟨t, ht, he, (bool_not_isSome_iff _).mpr ?_⟩
        rw [he]
        exact hc
  unfold uncachedSet
  by_cases hp : (mget i.state.playlists i.playlistId).isSome = true
  · rw [if_pos hp, mem_addMatching, hfirst]
    constructor
    · rintro ((hx | he1) | he2)
      · cases hx
      · exact Or.inl he1
      · exact Or.inr ⟨hp, he2⟩
    · rintro (he1 | ⟨_, he2⟩)
      · exact Or.inl (Or.inr he1)
      · exact Or.inr he2
  · rw [if_neg hp, hfirst]
    constructor
    · rintro (hx | he1)
      · cases hx
      · exact Or.inl he1
    · rintro (he1 | ⟨hps, _⟩)
      · exact Or.inr he1
      · exact absurd hps hp

/-- C5 (amended): the ids passed to `fetchINewsStoriesById` are exactly the
listing ids absent from the iNews data cache, together with — only when the
playlist already appears in the `playlists` cache — the listing ids that are
absent from the `segments` cache or whose locator differs from the
`segments`-cache entry; and every fetched story is written into the iNews data
cache. -/
theorem staleFetchSpec {σ : Type} (env : Env σ) (gv : String)
    (pl : ReducedRundown) (st : WatcherState) :
    (∀ x, x ∈ uncachedSet (pollInput env gv pl st) ↔
      ((∃ s ∈ pl.segments, s.externalId = x ∧
          mget st.cachedINewsData x = none) ∨
       ((mget st.playlists pl.externalId).isSome = true ∧
        ∃ s ∈ pl.segments, s.externalId = x ∧
          staleInSegmentsCache st.segments s = true))) ∧
    (((fetchedStories (pollInput env gv pl st)).map Prod.fst).Nodup →
      ∀ p ∈ fetchedStories (pollInput env gv pl st),
        mget (pollState (pollInput env gv pl st)).cachedINewsData p.1 =
          some p.2) := by
  constructor
  · intro x
    exact mem_uncachedSet (pollInput env gv pl st) x
  · intro hnd p hp
    show mget (mergeFetched st.cachedINewsData
      (fetchedStories (pollInput env gv pl st))) p.1 = some p.2
    exact mget_mergeFetched_mem _ _ _ _ hnd hp

/-- An environment whose story fetch always returns `unr1`. -/
def env5W : Env Unit :=
  { trivEnv with fetchINewsStoriesById := fun _ _ => [("s1", unr1)] }

/-- A listing for playlist "P" carrying segment "s1". -/
def pl5W : ReducedRundown :=
  { externalId := "P", name := "P", gatewayVersion := "v", segments := [red1] }

/-- Witness for C5 at a concrete input: "s1" is uncached, gets fetched and is
written to the iNews cache. -/
theorem staleFetchSpecWitness :
    ("s1" ∈ uncachedSet (pollInput env5W "v" pl5W emptyState)) ∧
    mget (pollState (pollInput env5W "v" pl5W emptyState)).cachedINewsData "s1" =
      some unr1 := by
  have h := staleFetchSpec env5W "v" pl5W emptyState
  refine ⟨(h.1 "s1").mpr (Or.inl ⟨red1, by decide, rfl, rfl⟩), ?_⟩
  exact h.2 (by decide) ("s1", unr1) (by decide)

/-- A cached story with locator "a". -/
def unrA : UnrankedSegment :=
  { rundownId := "P", externalId := "s1", name := "n", modified := 0,
    locator := "a", iNewsStory := story1 }

/-- A cached listing segment with locator "a". -/
def redA : ReducedSegment :=
  { externalId := "s1", name := "n", modified := 0, rank := 0, locator := "a" }

/-- A downloaded listing segment with the changed locator "b". -/
def redB : ReducedSegment :=
  { externalId := "s1", name := "n", modified := 0, rank := 0, locator := "b" }

/-- Listing carrying the changed segment. -/
def plCex : ReducedRundown :=
  { externalId := "P", name := "P", gatewayVersion := "v", segments := [redB] }

/-- A state caching "s1" with locator "a" but with an empty playlists cache. -/
def stCex : WatcherState :=
  { emptyState with cachedINewsData := [("s1", unrA)], segments := [("s1", redA)] }

/-- C5 counterexample to the claim as stated: segment "s1" is in the iNews
data cache with locator "a" while the new listing carries locator "b", yet —
because playlist "P" is not in the `playlists` cache — nothing is fetched. -/
theorem staleFetchClaimCex :
    uncachedSet (pollInput trivEnv "v" plCex stCex) = [] ∧
    mget stCex.cachedINewsData "s1" = some unrA ∧ unrA.locator = "a" ∧
    mget stCex.segments "s1" = some redA ∧ redA.locator = "a" ∧
    plCex.segments.map (fun s => s.locator) = ["b"] := by
  decide

/-! ## Emission lemmas -/

/-- The rank used when the rank assigner returned nothing for a segment:
the control-plane cached rank if known, else 0 (part_001 lines 631-635). -/
def cachedFallbackRank (ingestCache : List (String × RundownSegment))
    (sid : String) : Rat :=
  match mget ingestCache sid with
  | some c => c.rank
  | none => 0

theorem resolveEmittedRank_eq_fallback (assigned : List (String × Rat))
    (ingestCache : List (String × RundownSegment)) (sid : String)
    (h : mget assigned sid = none) :
    resolveEmittedRank assigned ingestCache sid =
      cachedFallbackRank ingestCache sid := by
  unfold resolveEmittedRank cachedFallbackRank
  rw [h]

theorem emitChangedSegments_mem (cache : List (String × UnrankedSegment))
    (assigned : List (String × Rat)) (ingestCache : List (String × RundownSegment))
    (l : List (String × String)) (rid sid : String) (inews : UnrankedSegment)
    (hmem : (rid, sid) ∈ l) (hc : mget cache sid = some inews) :
    WatcherEvent.segmentUpdate rid sid
        (inewsToIngestSegment rid sid inews
          (resolveEmittedRank assigned ingestCache sid)) ∈
      emitChangedSegments cache assigned ingestCache l := by
  induction l with
  | nil => cases hmem
  | cons p rest ih =>
    obtain ⟨r0, s0⟩ := p
    rcases List.mem_cons.mp hmem with heq | h2
    · obtain ⟨h1, h2'⟩ := Prod.ext_iff.mp heq
      cases h1
      cases h2'
      simp only [emitChangedSegments, hc]
      exact List.mem_cons_self _ _
    · cases hm0 : mget cache s0 with
      | none =>
        simp only [emitChangedSegments, hm0]
        exact ih h2
      | some inews0 =>
        simp only [emitChangedSegments, hm0]
        exact List.mem_cons_of_mem _ (ih h2)

theorem emitCreatedSegments_mem (cache : List (String × UnrankedSegment))
    (assigned : List (String × Rat)) (ingestCache : List (String × RundownSegment))
    (l : List (String × String)) (rid sid : String) (inews : UnrankedSegment)
    (hmem : (rid, sid) ∈ l) (hc : mget cache sid = some inews) :
    WatcherEvent.segmentCreate rid sid
        (inewsToIngestSegment rid sid inews
          (resolveEmittedRank assigned ingestCache sid)) ∈
      emitCreatedSegments cache assigned ingestCache l := by
  induction l with
  | nil => cases hmem
  | cons p rest ih =>
    obtain ⟨r0, s0⟩ := p
    rcases List.mem_cons.mp hmem with heq | h2
    · obtain ⟨h1, h2'⟩ := Prod.ext_iff.mp heq
      cases h1
      cases h2'
      simp only [emitCreatedSegments, hc]
      exact List.mem_cons_self _ _
    · cases hm0 : mget cache s0 with
      | none =>
        simp only [emitCreatedSegments, hm0]
        exact ih h2
      | some inews0 =>
        simp only [emitCreatedSegments, hm0]
        exact List.mem_cons_of_mem _ (ih h2)

/-- Nested lookup into a per-rundown rank map. -/
def mget2 (m : List (String × List (String × Rat))) (rid sid : String) :
    Option Rat :=
  (mget m rid).bind (fun rr => mget rr sid)

/-- Full characterisation of the coalesced rank maps of part_001 lines
663-680: a moved segment is mapped to its emitted rank, everything else is
untouched. -/
theorem buildUpdatedRanks_spec (assigned : List (String × Rat))
    (ingestCache : List (String × RundownSegment)) (l : List (String × String))
    (acc : List (String × List (String × Rat))) (rid sid : String) :
    mget2 (buildUpdatedRanks assigned ingestCache l acc) rid sid =
      if (rid, sid) ∈ l then
        some (resolveEmittedRank assigned ingestCache sid)
      else mget2 acc rid sid := by
  induction l generalizing acc with
  | nil => simp [buildUpdatedRanks]
  | cons p rest ih =>
    obtain ⟨r0, s0⟩ := p
    show mget2 (buildUpdatedRanks assigned ingestCache rest
      (mset acc r0 (mset ((mget acc r0).getD []) s0
        (resolveEmittedRank assigned ingestCache s0)))) rid sid = _
    rw [ih]
    by_cases hmem : (rid, sid) ∈ rest
    · rw [if_pos hmem, if_pos (List.mem_cons_of_mem _ hmem)]
    · rw [if_neg hmem]
      by_cases heq : (rid, sid) = (r0, s0)
      · obtain ⟨h1, h2⟩ := Prod.ext_iff.mp heq
        cases h1
        cases h2
        rw [if_pos (List.mem_cons_self _ _)]
        unfold mget2
        rw [mget_mset_self]
        simp [mget_mset_self]
      · rw [if_neg (by
          intro hc
          rcases List.mem_cons.mp hc with h | h
          · exact heq h
          · exact hmem h)]
        by_cases hr : rid = r0
        · subst hr
          have hs : ¬ sid = s0 := fun e => heq (by rw [e])
          have hs2 : ¬ s0 = sid := fun e => hs e.symm
          unfold mget2
          rw [mget_mset_self]
          cases hacc : mget acc rid with
          | none => simp [hacc, mget_mset_ne _ _ _ _ hs, mget, hs2]
          | some rr => simp [hacc, mget_mset_ne _ _ _ _ hs, hs2]
        · unfold mget2
          rw [mget_mset_ne _ _ _ _ hr]

theorem buildUpdatedRanks_keys_nodup (assigned : List (String × Rat))
    (ingestCache : List (String × RundownSegment)) (l : List (String × String))
    (acc : List (String × List (String × Rat)))
    (h : (acc.map Prod.fst).Nodup) :
    ((buildUpdatedRanks assigned ingestCache l acc).map Prod.fst).Nodup := by
  induction l generalizing acc with
  | nil => exact h
  | cons p rest ih =>
    obtain ⟨r0, s0⟩ := p
    exact ih _ (keys_nodup_mset _ _ _ h)

theorem buildUpdatedRanks_keys_from (assigned : List (String × Rat))
    (ingestCache : List (String × RundownSegment)) (l : List (String × String))
    (acc : List (String × List (String × Rat))) :
    ∀ q ∈ buildUpdatedRanks assigned ingestCache l acc,
      q.1 ∈ acc.map Prod.fst ∨ ∃ s, (q.1, s) ∈ l := by
  induction l generalizing acc with
  | nil =>
    intro q hq
    exact Or.inl (List.mem_map_of_mem Prod.fst hq)
  | cons p rest ih =>
    obtain ⟨r0, s0⟩ := p
    intro q hq
    rcases ih _ q hq with hk | ⟨s, hs⟩
    · rcases (mem_keys_mset acc r0 q.1 _).mp hk with hk2 | heq
      · exact Or.inl hk2
      · exact Or.inr ⟨s0, by rw [heq]; exact List.mem_cons_self _ _⟩
    · exact Or.inr ⟨s, List.mem_cons_of_mem _ hs⟩

/-! ## Claim C7 -/

/-- C7: a remaining changed, created, or moved segment for which the rank
assigner returned no rank is still emitted, with the control-plane cached rank
when one is available and rank 0 otherwise (for changed/created segments this
needs the segment's story to be in the iNews cache; a missing story is the
separate CacheMiss case). -/
theorem rankFallbackEmission {σ : Type} (env : Env σ) (gv : String)
    (pl : ReducedRundown) (st : WatcherState) (rid sid : String)
    (hnone : mget (assignedRanks (pollInput env gv pl st)) sid = none) :
    ((rid, sid) ∈ (segListsFinal (pollInput env gv pl st)).changed →
      ∀ inews, mget (inewsCacheAfterFetch (pollInput env gv pl st)) sid = some inews →
        WatcherEvent.segmentUpdate rid sid
            (inewsToIngestSegment rid sid inews
              (cachedFallbackRank (ingestCacheData (pollInput env gv pl st)) sid)) ∈
          pollEvents (pollInput env gv pl st)) ∧
    ((rid, sid) ∈ (segListsFinal (pollInput env gv pl st)).created →
      ∀ inews, mget (inewsCacheAfterFetch (pollInput env gv pl st)) sid = some inews →
        WatcherEvent.segmentCreate rid sid
            (inewsToIngestSegment rid sid inews
              (cachedFallbackRank (ingestCacheData (pollInput env gv pl st)) sid)) ∈
          pollEvents (pollInput env gv pl st)) ∧
    ((rid, sid) ∈ (segListsFinal (pollInput env gv pl st)).moved →
      ∃ ranks, WatcherEvent.segmentRanksUpdate rid ranks ∈
          pollEvents (pollInput env gv pl st) ∧
        mget ranks sid =
          some (cachedFallbackRank (ingestCacheData (pollInput env gv pl st)) sid)) := by
  refine ⟨?_, ?_, ?_⟩
  · intro hmem inews hc
    have hm := emitChangedSegments_mem (inewsCacheAfterFetch (pollInput env gv pl st))
      (assignedRanks (pollInput env gv pl st)) (ingestCacheData (pollInput env gv pl st))
      (segListsFinal (pollInput env gv pl st)).changed rid sid inews hmem hc
    rw [resolveEmittedRank_eq_fallback _ _ _ hnone] at hm
    simp only [pollEvents, List.mem_append]
    exact Or.inr (Or.inr (Or.inr (Or.inr (Or.inl hm))))
  · intro hmem inews hc
    have hm := emitCreatedSegments_mem (inewsCacheAfterFetch (pollInput env gv pl st))
      (assignedRanks (pollInput env gv pl st)) (ingestCacheData (pollInput env gv pl st))
      (segListsFinal (pollInput env gv pl st)).created rid sid inews hmem hc
    rw [resolveEmittedRank_eq_fallback _ _ _ hnone] at hm
    simp only [pollEvents, List.mem_append]
    exact Or.inr (Or.inr (Or.inr (Or.inr (Or.inr (Or.inl hm)))))
  · intro hmem
    have hspec := buildUpdatedRanks_spec (assignedRanks (pollInput env gv pl st))
      (ingestCacheData (pollInput env gv pl st))
      (segListsFinal (pollInput env gv pl st)).moved [] rid sid
    rw [if_pos hmem] at hspec
    unfold mget2 at hspec
    cases hur : mget (buildUpdatedRanks (assignedRanks (pollInput env gv pl st))
        (ingestCacheData (pollInput env gv pl st))
        (segListsFinal (pollInput env gv pl st)).moved []) rid with
    | none =>
      rw [hur] at hspec
      simp at hspec
    | some ranks =>
      rw [hur] at hspec
      refine ⟨ranks, ?_, ?_⟩
      · have hmem2 : (rid, ranks) ∈ updatedRanksMap (pollInput env gv pl st) :=
          mget_some_mem _ _ _ hur
        simp only [pollEvents, List.mem_append]
        refine Or.inr (Or.inr (Or.inr (Or.inr (Or.inr (Or.inr ?_)))))
        exact List.mem_map_of_mem _ hmem2
      · rw [← resolveEmittedRank_eq_fallback _ _ _ hnone]
        simpa using hspec

/-- An environment that reports "s1" changed and moved in rundown "Q_1" and
assigns no ranks at all. -/
def env7 : Env Unit :=
  { trivEnv with
    fetchINewsStoriesById := fun _ _ => [("s1", unr1)],
    diffPlaylist := fun _ _ =>
      ([PlaylistChange.segmentChanged "Q_1" "s1",
        PlaylistChange.segmentMoved "Q_1" "s1"], ()) }

/-- A listing for queue "Q" carrying segment "s1". -/
def pl7 : ReducedRundown :=
  { externalId := "Q", name := "Q", gatewayVersion := "v", segments := [red1] }

/-- Witness for C7 at a concrete input: "s1" has no assigned rank and is still
emitted as a segment update. -/
theorem rankFallbackEmissionWitness :
    WatcherEvent.segmentUpdate "Q_1" "s1"
        (inewsToIngestSegment "Q_1" "s1" unr1
          (cachedFallbackRank (ingestCacheData (pollInput env7 "v" pl7 emptyState))
            "s1")) ∈
      pollEvents (pollInput env7 "v" pl7 emptyState) :=
  (rankFallbackEmission env7 "v" pl7 emptyState "Q_1" "s1" (by decide)).1
    (by decide) unr1 (by decide)

/-! ## Event shape lemmas: each emission block produces one event kind -/

theorem deletedRundownEvents_shape (l : List String) :
    ∀ e ∈ deletedRundownEvents l, ∃ r, e = WatcherEvent.rundownDelete r := by
  intro e he
  rcases List.mem_map.mp he with ⟨r, _, rfl⟩
  exact ⟨r, rfl⟩

theorem deletedSegmentEvents_shape (l : List (String × String)) :
    ∀ e ∈ deletedSegmentEvents l, ∃ p ∈ l, e = WatcherEvent.segmentDelete p.1 p.2 := by
  intro e he
  rcases List.mem_map.mp he with ⟨p, hp, rfl⟩
  exact ⟨p, hp, rfl⟩

theorem createdRundownEvents_shape (pid : String) (pa : List PlaylistRundown)
    (cache : List (String × UnrankedSegment)) (ranks : List (String × Rat))
    (l : List String) :
    ∀ e ∈ createdRundownEvents pid pa cache ranks l,
      ∃ r ru, e = WatcherEvent.rundownCreate r ru := by
  induction l with
  | nil => intro e he; cases he
  | cons r0 rest ih =>
    intro e he
    cases hf : pa.find? (fun r => r.rundownId == r0) with
    | none =>
      simp only [createdRundownEvents, hf] at he
      exact ih e he
    | some ar =>
      simp only [createdRundownEvents, hf] at he
      rcases List.mem_cons.mp he with rfl | h2
      · exact ⟨r0, _, rfl⟩
      · exact ih e h2

theorem updatedRundownEvents_shape (pid : String) (pa : List PlaylistRundown)
    (cache : List (String × UnrankedSegment)) (ranks : List (String × Rat))
    (l : List String) :
    ∀ e ∈ updatedRundownEvents pid pa cache ranks l,
      ∃ r ru, e = WatcherEvent.rundownUpdate r ru := by
  induction l with
  | nil => intro e he; cases he
  | cons r0 rest ih =>
    intro e he
    cases hf : pa.find? (fun r => r.rundownId == r0) with
    | none =>
      simp only [updatedRundownEvents, hf] at he
      exact ih e he
    | some ar =>
      simp only [updatedRundownEvents, hf] at he
      rcases List.mem_cons.mp he with rfl | h2
      · exact ⟨r0, _, rfl⟩
      · exact ih e h2

theorem emitChangedSegments_shape (cache : List (String × UnrankedSegment))
    (assigned : List (String × Rat)) (ingestCache : List (String × RundownSegment))
    (l : List (String × String)) :
    ∀ e ∈ emitChangedSegments cache assigned ingestCache l,
      ∃ p ∈ l, ∃ seg, e = WatcherEvent.segmentUpdate p.1 p.2 seg := by
  induction l with
  | nil => intro e he; cases he
  | cons p rest ih =>
    obtain ⟨r0, s0⟩ := p
    intro e he
    cases hm : mget cache s0 with
    | none =>
      simp only [emitChangedSegments, hm] at he
      rcases ih e he with ⟨q, hq, seg, rfl⟩
      exact ⟨q, List.mem_cons_of_mem _ hq, seg, rfl⟩
    | some inews =>
      simp only [emitChangedSegments, hm] at he
      rcases List.mem_cons.mp he with rfl | h2
      · exact ⟨(r0, s0), List.mem_cons_self _ _, _, rfl⟩
      · rcases ih e h2 with ⟨q, hq, seg, rfl⟩
        exact ⟨q, List.mem_cons_of_mem _ hq, seg, rfl⟩

theorem emitCreatedSegments_shape (cache : List (String × UnrankedSegment))
    (assigned : List (String × Rat)) (ingestCache : List (String × RundownSegment))
    (l : List (String × String)) :
    ∀ e ∈ emitCreatedSegments cache assigned ingestCache l,
      ∃ p ∈ l, ∃ seg, e = WatcherEvent.segmentCreate p.1 p.2 seg := by
  induction l with
  | nil => intro e he; cases he
  | cons p rest ih =>
    obtain ⟨r0, s0⟩ := p
    intro e he
    cases hm : mget cache s0 with
    | none =>
      simp only [emitCreatedSegments, hm] at he
      rcases ih e he with ⟨q, hq, seg, rfl⟩
      exact ⟨q, List.mem_cons_of_mem _ hq, seg, rfl⟩
    | some inews =>
      simp only [emitCreatedSegments, hm] at he
      rcases List.mem_cons.mp he with rfl | h2
      · exact ⟨(r0, s0), List.mem_cons_self _ _, _, rfl⟩
      · rcases ih e h2 with ⟨q, hq, seg, rfl⟩
        exact ⟨q, List.mem_cons_of_mem _ hq, seg, rfl⟩

theorem ranksEvents_shape (ur : List (String × List (String × Rat))) :
    ∀ e ∈ ur.map (fun p => WatcherEvent.segmentRanksUpdate p.1 p.2),
      ∃ p ∈ ur, e = WatcherEvent.segmentRanksUpdate p.1 p.2 := by
  intro e he
  rcases List.mem_map.mp he with ⟨p, hp, rfl⟩
  exact ⟨p, hp, rfl⟩

/-! ## Claim C6 -/

/-- Extract the rundown id of a `segment_ranks_update` event. -/
def ranksUpdateRid : WatcherEvent → Option String
  | .segmentRanksUpdate rid _ => some rid
  | _ => none

theorem filterMap_ranksRid_of_none (l : List WatcherEvent)
    (h : ∀ e ∈ l, ranksUpdateRid e = none) :
    l.filterMap ranksUpdateRid = [] := by
  induction l with
  | nil => rfl
  | cons a rest ih =>
    rw [List.filterMap_cons, h a (List.mem_cons_self _ _)]
    exact ih (fun e he => h e (List.mem_cons_of_mem _ he))

theorem filterMap_ranksRid_map (ur : List (String × List (String × Rat))) :
    (ur.map (fun p => WatcherEvent.segmentRanksUpdate p.1 p.2)).filterMap
      ranksUpdateRid = ur.map Prod.fst := by
  induction ur with
  | nil => rfl
  | cons p rest ih =>
    simp only [List.map_cons, List.filterMap_cons, ranksUpdateRid, ih]

/-- C6: in a single poll at most one `segment_ranks_update` event is emitted
per rundown (the emitted rundown ids are distinct), and a ranks payload maps a
segment exactly when that segment has a remaining moved change in the rundown,
giving it the rank the watcher assigns to it. -/
theorem coalescedRanksSpec {σ : Type} (env : Env σ) (gv : String)
    (pl : ReducedRundown) (st : WatcherState) :
    ((pollEvents (pollInput env gv pl st)).filterMap ranksUpdateRid).Nodup ∧
    (∀ rid ranks,
      WatcherEvent.segmentRanksUpdate rid ranks ∈
        pollEvents (pollInput env gv pl st) →
      ∀ sid,
        ((rid, sid) ∈ (segListsFinal (pollInput env gv pl st)).moved →
          mget ranks sid = some (resolveEmittedRank
            (assignedRanks (pollInput env gv pl st))
            (ingestCacheData (pollInput env gv pl st)) sid)) ∧
        (∀ v, mget ranks sid = some v →
          (rid, sid) ∈ (segListsFinal (pollInput env gv pl st)).moved)) := by
  have hkeysnd : ((updatedRanksMap (pollInput env gv pl st)).map Prod.fst).Nodup :=
    buildUpdatedRanks_keys_nodup _ _ _ [] (by simp)
  have h1 : (deletedRundownEvents
      (deletedRundownIds (pollInput env gv pl st))).filterMap ranksUpdateRid = [] :=
    filterMap_ranksRid_of_none _ (fun e he => by
      rcases deletedRundownEvents_shape _ e he with ⟨r, rfl⟩; rfl)
  have h2 : (deletedSegmentEvents
      (segListsAfterDeleted (pollInput env gv pl st)).deleted).filterMap
        ranksUpdateRid = [] :=
    filterMap_ranksRid_of_none _ (fun e he => by
      rcases deletedSegmentEvents_shape _ e he with ⟨p, _, rfl⟩; rfl)
  have h3 : (createdRundownEvents (pollInput env gv pl st).playlistId
      (playlistAssignments (pollInput env gv pl st))
      (inewsCacheAfterFetch (pollInput env gv pl st))
      (assignedRanks (pollInput env gv pl st))
      (createdRundownIds (pollInput env gv pl st))).filterMap ranksUpdateRid = [] :=
    filterMap_ranksRid_of_none _ (fun e he => by
      rcases createdRundownEvents_shape _ _ _ _ _ e he with ⟨r, ru, rfl⟩; rfl)
  have h4 : (updatedRundownEvents (pollInput env gv pl st).playlistId
      (playlistAssignments (pollInput env gv pl st))
      (inewsCacheAfterFetch (pollInput env gv pl st))
      (assignedRanks (pollInput env gv pl st))
      (updatedRundownIds (pollInput env gv pl st))).filterMap ranksUpdateRid = [] :=
    filterMap_ranksRid_of_none _ (fun e he => by
      rcases updatedRundownEvents_shape _ _ _ _ _ e he with ⟨r, ru, rfl⟩; rfl)
  have h5 : (emitChangedSegments (inewsCacheAfterFetch (pollInput env gv pl st))
      (assignedRanks (pollInput env gv pl st))
      (ingestCacheData (pollInput env gv pl st))
      (segListsFinal (pollInput env gv pl st)).changed).filterMap
        ranksUpdateRid = [] :=
    filterMap_ranksRid_of_none _ (fun e he => by
      rcases emitChangedSegments_shape _ _ _ _ e he with ⟨p, _, seg, rfl⟩; rfl)
  have h6 : (emitCreatedSegments (inewsCacheAfterFetch (pollInput env gv pl st))
      (assignedRanks (pollInput env gv pl st))
      (ingestCacheData (pollInput env gv pl st))
      (segListsFinal (pollInput env gv pl st)).created).filterMap
        ranksUpdateRid = [] :=
    filterMap_ranksRid_of_none _ (fun e he => by
      rcases emitCreatedSegments_shape _ _ _ _ e he with ⟨p, _, seg, rfl⟩; rfl)
  constructor
  · simp only [pollEvents, List.filterMap_append, h1, h2, h3, h4, h5, h6,
      filterMap_ranksRid_map, List.nil_append]
    exact hkeysnd
  · intro rid ranks hev sid
    simp only [pollEvents, List.mem_append] at hev
    have hmem2 : (rid, ranks) ∈ updatedRanksMap (pollInput env gv pl st) := by
      rcases hev with h | h | h | h | h | h | h
      · rcases deletedRundownEvents_shape _ _ h with ⟨r, heq⟩
        exact WatcherEvent.noConfusion heq
      · rcases deletedSegmentEvents_shape _ _ h with ⟨p, _, heq⟩
        exact WatcherEvent.noConfusion heq
      · rcases createdRundownEvents_shape _ _ _ _ _ _ h with ⟨r, ru, heq⟩
        exact WatcherEvent.noConfusion heq
      · rcases updatedRundownEvents_shape _ _ _ _ _ _ h with ⟨r, ru, heq⟩
        exact WatcherEvent.noConfusion heq
      · rcases emitChangedSegments_shape _ _ _ _ _ h with ⟨p, _, seg, heq⟩
        exact WatcherEvent.noConfusion heq
      · rcases emitCreatedSegments_shape _ _ _ _ _ h with ⟨p, _, seg, heq⟩
        exact WatcherEvent.noConfusion heq
      · rcases ranksEvents_shape _ _ h with ⟨p, hp, heq⟩
        injection heq with e1 e2
        have hpe : p = (rid, ranks) := by
          rw [Prod.ext_iff]
          exact ⟨e1.symm, e2.symm⟩
        exact hpe ▸ hp
    have hur : mget (buildUpdatedRanks (assignedRanks (pollInput env gv pl st))
        (ingestCacheData (pollInput env gv pl st))
        (segListsFinal (pollInput env gv pl st)).moved []) rid = some ranks :=
      mget_eq_some_of_mem_nodup _ _ _ hmem2 hkeysnd
    constructor
    · intro hmv
      have hspec := buildUpdatedRanks_spec (assignedRanks (pollInput env gv pl st))
        (ingestCacheData (pollInput env gv pl st))
        (segListsFinal (pollInput env gv pl st)).moved [] rid sid
      rw [if_pos hmv] at hspec
      unfold mget2 at hspec
      rw [hur] at hspec
      simpa using hspec
    · intro v hv
      by_contra hmv
      have hspec := buildUpdatedRanks_spec (assignedRanks (pollInput env gv pl st))
        (ingestCacheData (pollInput env gv pl st))
        (segListsFinal (pollInput env gv pl st)).moved [] rid sid
      rw [if_neg hmv] at hspec
      unfold mget2 at hspec
      rw [hur] at hspec
      simp only [Option.some_bind] at hspec
      rw [hv] at hspec
      simp [mget] at hspec

/-- Witness for C6 at a concrete input: the single ranks event of the `env7`
poll maps "s1" to its emitted rank. -/
theorem coalescedRanksSpecWitness :
    mget [("s1", (0 : Rat))] "s1" =
      some (resolveEmittedRank (assignedRanks (pollInput env7 "v" pl7 emptyState))
        (ingestCacheData (pollInput env7 "v" pl7 emptyState)) "s1") := by
  have h := coalescedRanksSpec env7 "v" pl7 emptyState
  exact ((h.2 "Q_1" [("s1", 0)] (by decide) "s1").1 (by decide))

/-! ## Claim C2 -/

/-- Position of an event kind in the emission order of part_001 lines 536-684. -/
def eventKind : WatcherEvent → Nat
  | .rundownDelete _ => 0
  | .segmentDelete _ _ => 1
  | .rundownCreate _ _ => 2
  | .rundownUpdate _ _ => 3
  | .segmentUpdate _ _ _ => 4
  | .segmentCreate _ _ _ => 5
  | .segmentRanksUpdate _ _ => 6

theorem pairwise_kind_const {l : List WatcherEvent} {c : Nat}
    (h : ∀ e ∈ l, eventKind e = c) :
    l.Pairwise (fun a b => eventKind a ≤ eventKind b) := by
  induction l with
  | nil => exact List.Pairwise.nil
  | cons a rest ih =>
    refine List.Pairwise.cons (fun b hb => ?_)
      (ih (fun e he => h e (List.mem_cons_of_mem _ he)))
    rw [h a (List.mem_cons_self _ _), h b (List.mem_cons_of_mem _ hb)]

theorem pairwise_kind_append {l1 l2 : List WatcherEvent} {c : Nat}
    (h1 : ∀ e ∈ l1, eventKind e = c) (h2 : ∀ e ∈ l2, c ≤ eventKind e)
    (h3 : l2.Pairwise (fun a b => eventKind a ≤ eventKind b)) :
    (l1 ++ l2).Pairwise (fun a b => eventKind a ≤ eventKind b) := by
  rw [List.pairwise_append]
  refine ⟨pairwise_kind_const h1, h3, fun a ha b hb => ?_⟩
  rw [h1 a ha]
  exact h2 b hb

theorem kind_bound_append {l1 l2 : List WatcherEvent} {c : Nat}
    (h1 : ∀ e ∈ l1, c ≤ eventKind e) (h2 : ∀ e ∈ l2, c ≤ eventKind e) :
    ∀ e ∈ l1 ++ l2, c ≤ eventKind e := by
  intro e he
  rcases List.mem_append.mp he with h | h
  · exact h1 e h
  · exact h2 e h

/-- C2: within one poll of a queue the emitted events are ordered by kind:
all rundown_delete, then segment_delete, then rundown_create, then
rundown_update, then segment_update, then segment_create, and finally
segment_ranks_update. -/
theorem pollEventOrder {σ : Type} (env : Env σ) (gv : String)
    (pl : ReducedRundown) (st : WatcherState) :
    (pollEvents (pollInput env gv pl st)).Pairwise
      (fun a b => eventKind a ≤ eventKind b) := by
  have k1 : ∀ e ∈ deletedRundownEvents
      (deletedRundownIds (pollInput env gv pl st)), eventKind e = 0 := by
    intro e he
    rcases deletedRundownEvents_shape _ e he with ⟨r, rfl⟩
    rfl
  have k2 : ∀ e ∈ deletedSegmentEvents
      (segListsAfterDeleted (pollInput env gv pl st)).deleted, eventKind e = 1 := by
    intro e he
    rcases deletedSegmentEvents_shape _ e he with ⟨p, _, rfl⟩
    rfl
  have k3 : ∀ e ∈ createdRundownEvents (pollInput env gv pl st).playlistId
      (playlistAssignments (pollInput env gv pl st))
      (inewsCacheAfterFetch (pollInput env gv pl st))
      (assignedRanks (pollInput env gv pl st))
      (createdRundownIds (pollInput env gv pl st)), eventKind e = 2 := by
    intro e he
    rcases createdRundownEvents_shape _ _ _ _ _ e he with ⟨r, ru, rfl⟩
    rfl
  have k4 : ∀ e ∈ updatedRundownEvents (pollInput env gv pl st).playlistId
      (playlistAssignments (pollInput env gv pl st))
      (inewsCacheAfterFetch (pollInput env gv pl st))
      (assignedRanks (pollInput env gv pl st))
      (updatedRundownIds (pollInput env gv pl st)), eventKind e = 3 := by
    intro e he
    rcases updatedRundownEvents_shape _ _ _ _ _ e he with ⟨r, ru, rfl⟩
    rfl
  have k5 : ∀ e ∈ emitChangedSegments (inewsCacheAfterFetch (pollInput env gv pl st))
      (assignedRanks (pollInput env gv pl st))
      (ingestCacheData (pollInput env gv pl st))
      (segListsFinal (pollInput env gv pl st)).changed, eventKind e = 4 := by
    intro e he
    rcases emitChangedSegments_shape _ _ _ _ e he with ⟨p, _, seg, rfl⟩
    rfl
  have k6 : ∀ e ∈ emitCreatedSegments (inewsCacheAfterFetch (pollInput env gv pl st))
      (assignedRanks (pollInput env gv pl st))
      (ingestCacheData (pollInput env gv pl st))
      (segListsFinal (pollInput env gv pl st)).created, eventKind e = 5 := by
    intro e he
    rcases emitCreatedSegments_shape _ _ _ _ e he with ⟨p, _, seg, rfl⟩
    rfl
  have k7 : ∀ e ∈ (updatedRanksMap (pollInput env gv pl st)).map
      (fun p => WatcherEvent.segmentRanksUpdate p.1 p.2), eventKind e = 6 := by
    intro e he
    rcases ranksEvents_shape _ e he with ⟨p, _, rfl⟩
    rfl
  have p7 := pairwise_kind_const k7
  have b7 : ∀ e ∈ (updatedRanksMap (pollInput env gv pl st)).map
      (fun p => WatcherEvent.segmentRanksUpdate p.1 p.2), 5 ≤ eventKind e :=
    fun e he => by rw [k7 e he]; omega
  have p67 := pairwise_kind_append k6 b7 p7
  have b67 := kind_bound_append (c := 4)
    (fun e he => by rw [k6 e he]; omega)
    (fun e he => by rw [k7 e he]; omega)
  have p567 := pairwise_kind_append k5 b67 p67
  have b567 := kind_bound_append (c := 3)
    (fun e he => by rw [k5 e he]; omega)
    (kind_bound_append
      (fun e he => by rw [k6 e he]; omega)
      (fun e he => by rw [k7 e he]; omega))
  have p4567 := pairwise_kind_append k4 b567 p567
  have b4567 := kind_bound_append (c := 2)
    (fun e he => by rw [k4 e he]; omega)
    (kind_bound_append
      (fun e he => by rw [k5 e he]; omega)
      (kind_bound_append
        (fun e he => by rw [k6 e he]; omega)
        (fun e he => by rw [k7 e he]; omega)))
  have p34567 := pairwise_kind_append k3 b4567 p4567
  have b34567 := kind_bound_append (c := 1)
    (fun e he => by rw [k3 e he]; omega)
    (kind_bound_append
      (fun e he => by rw [k4 e he]; omega)
      (kind_bound_append
        (fun e he => by rw [k5 e he]; omega)
        (kind_bound_append
          (fun e he => by rw [k6 e he]; omega)
          (fun e he => by rw [k7 e he]; omega))))
  have p234567 := pairwise_kind_append k2 b34567 p34567
  have b234567 := kind_bound_append (c := 0)
    (fun e he => by rw [k2 e he]; omega)
    (kind_bound_append
      (fun e he => by rw [k3 e he]; omega)
      (kind_bound_append
        (fun e he => by rw [k4 e he]; omega)
        (kind_bound_append
          (fun e he => by rw [k5 e he]; omega)
          (kind_bound_append
            (fun e he => by rw [k6 e he]; omega)
            (fun e he => by rw [k7 e he]; omega)))))
  exact pairwise_kind_append k1 b234567 p234567

/-! ## Claim C3 -/

/-- Does this event create or update the rundown `rid`? -/
def isRundownCreateOrUpdate (rid : String) : WatcherEvent → Bool
  | .rundownCreate r _ => r == rid
  | .rundownUpdate r _ => r == rid
  | _ => false

/-- Is this a segment-level event in rundown `rid` (segment create, segment
update, or a ranks update of the rundown)? -/
def isSegmentEventIn (rid : String) : WatcherEvent → Bool
  | .segmentUpdate r _ _ => r == rid
  | .segmentCreate r _ _ => r == rid
  | .segmentRanksUpdate r _ => r == rid
  | _ => false

theorem mem_filterOutRundown (rid : String) (l : List (String × String))
    (x : String × String) :
    x ∈ filterOutRundown rid l ↔ x ∈ l ∧ x.1 ≠ rid := by
  simp [filterOutRundown, List.mem_filter, bne_iff_ne]

theorem filterCovered_subset (pa : List PlaylistRundown) (l : List String)
    (L : SegLists) :
    (∀ x ∈ (filterCoveredSegments pa l L).changed, x ∈ L.changed) ∧
    (∀ x ∈ (filterCoveredSegments pa l L).created, x ∈ L.created) ∧
    (∀ x ∈ (filterCoveredSegments pa l L).moved, x ∈ L.moved) := by
  induction l generalizing L with
  | nil => exact ⟨fun x h => h, fun x h => h, fun x h => h⟩
  | cons r0 rest ih =>
    cases hfv : pa.find? (fun r => r.rundownId == r0) with
    | none =>
      simp only [filterCoveredSegments, hfv]
      exact ih _
    | some ar =>
      simp only [filterCoveredSegments, hfv]
      refine ⟨fun x hx => ?_, fun x hx => ?_, fun x hx => ?_⟩
      · exact ((mem_filterOutRundown _ _ _).mp ((ih _).1 x hx)).1
      · exact ((mem_filterOutRundown _ _ _).mp ((ih _).2.1 x hx)).1
      · exact ((mem_filterOutRundown _ _ _).mp ((ih _).2.2 x hx)).1

theorem filterCovered_excludes (pa : List PlaylistRundown) (l : List String)
    (L : SegLists) (rid : String) (hmem : rid ∈ l)
    (hf : (pa.find? (fun r => r.rundownId == rid)).isSome = true) :
    (∀ x ∈ (filterCoveredSegments pa l L).changed, x.1 ≠ rid) ∧
    (∀ x ∈ (filterCoveredSegments pa l L).created, x.1 ≠ rid) ∧
    (∀ x ∈ (filterCoveredSegments pa l L).moved, x.1 ≠ rid) := by
  induction l generalizing L with
  | nil => cases hmem
  | cons r0 rest ih =>
    rcases List.mem_cons.mp hmem with heq | h2
    · subst heq
      cases hfv : pa.find? (fun r => r.rundownId == rid) with
      | none =>
        rw [hfv] at hf
        simp at hf
      | some ar =>
        simp only [filterCoveredSegments, hfv]
        refine ⟨fun x hx => ?_, fun x hx => ?_, fun x hx => ?_⟩
        · exact ((mem_filterOutRundown _ _ _).mp ((filterCovered_subset pa rest _).1 x hx)).2
        · exact ((mem_filterOutRundown _ _ _).mp ((filterCovered_subset pa rest _).2.1 x hx)).2
        · exact ((mem_filterOutRundown _ _ _).mp ((filterCovered_subset pa rest _).2.2 x hx)).2
    · cases hfv : pa.find? (fun r => r.rundownId == r0) with
      | none =>
        simp only [filterCoveredSegments, hfv]
        exact ih _ h2
      | some ar =>
        simp only [filterCoveredSegments, hfv]
        exact ih _ h2

theorem createdRundownEvents_rid (pid : String) (pa : List PlaylistRundown)
    (cache : List (String × UnrankedSegment)) (ranks : List (String × Rat))
    (l : List String) (rid : String) (ru : IngestRundown)
    (h : WatcherEvent.rundownCreate rid ru ∈
      createdRundownEvents pid pa cache ranks l) :
    rid ∈ l ∧ (pa.find? (fun r => r.rundownId == rid)).isSome = true := by
  induction l with
  | nil => cases h
  | cons r0 rest ih =>
    cases hf : pa.find? (fun r => r.rundownId == r0) with
    | none =>
      simp only [createdRundownEvents, hf] at h
      exact ⟨List.mem_cons_of_mem _ (ih h).1, (ih h).2⟩
    | some ar =>
      simp only [createdRundownEvents, hf] at h
      rcases List.mem_cons.mp h with heq | h2
      · injection heq with e1 e2
        subst e1
        refine ⟨List.mem_cons_self _ _, ?_⟩
        rw [hf]
        rfl
      · exact ⟨List.mem_cons_of_mem _ (ih h2).1, (ih h2).2⟩

theorem updatedRundownEvents_rid (pid : String) (pa : List PlaylistRundown)
    (cache : List (String × UnrankedSegment)) (ranks : List (String × Rat))
    (l : List String) (rid : String) (ru : IngestRundown)
    (h : WatcherEvent.rundownUpdate rid ru ∈
      updatedRundownEvents pid pa cache ranks l) :
    rid ∈ l ∧ (pa.find? (fun r => r.rundownId == rid)).isSome = true := by
  induction l with
  | nil => cases h
  | cons r0 rest ih =>
    cases hf : pa.find? (fun r => r.rundownId == r0) with
    | none =>
      simp only [updatedRundownEvents, hf] at h
      exact ⟨List.mem_cons_of_mem _ (ih h).1, (ih h).2⟩
    | some ar =>
      simp only [updatedRundownEvents, hf] at h
      rcases List.mem_cons.mp h with heq | h2
      · injection heq with e1 e2
        subst e1
        refine ⟨List.mem_cons_self _ _, ?_⟩
        rw [hf]
        rfl
      · exact ⟨List.mem_cons_of_mem _ (ih h2).1, (ih h2).2⟩

/-- C3: if within one poll a rundown received a rundown_create or
rundown_update event, then no segment-level event (segment_create,
segment_update, or segment_ranks_update) is emitted for that rundown in the
same poll — its segments travel only inside the rundown-level event. -/
theorem rundownCoversSegments {σ : Type} (env : Env σ) (gv : String)
    (pl : ReducedRundown) (st : WatcherState) (rid : String)
    (h : ∃ e ∈ pollEvents (pollInput env gv pl st),
      isRundownCreateOrUpdate rid e = true) :
    ∀ e ∈ pollEvents (pollInput env gv pl st), isSegmentEventIn rid e = false := by
  obtain ⟨ew, hew, hflag⟩ := h
  have hexcl : (∀ x ∈ (segListsFinal (pollInput env gv pl st)).changed, x.1 ≠ rid) ∧
      (∀ x ∈ (segListsFinal (pollInput env gv pl st)).created, x.1 ≠ rid) ∧
      (∀ x ∈ (segListsFinal (pollInput env gv pl st)).moved, x.1 ≠ rid) := by
    simp only [pollEvents, List.mem_append] at hew
    rcases hew with hb | hb | hb | hb | hb | hb | hb
    · rcases deletedRundownEvents_shape _ _ hb with ⟨r, rfl⟩
      simp [isRundownCreateOrUpdate] at hflag
    · rcases deletedSegmentEvents_shape _ _ hb with ⟨p, _, rfl⟩
      simp [isRundownCreateOrUpdate] at hflag
    · rcases createdRundownEvents_shape _ _ _ _ _ _ hb with ⟨r, ru, rfl⟩
      have hr : r = rid := by simpa [isRundownCreateOrUpdate] using hflag
      subst hr
      have hrl := createdRundownEvents_rid _ _ _ _ _ _ _ hb
      have hex3 := filterCovered_excludes (playlistAssignments (pollInput env gv pl st))
        (createdRundownIds (pollInput env gv pl st))
        (segListsAfterDeleted (pollInput env gv pl st)) r hrl.1 hrl.2
      have hsub := filterCovered_subset (playlistAssignments (pollInput env gv pl st))
        (updatedRundownIds (pollInput env gv pl st))
        (segListsAfterCreated (pollInput env gv pl st))
      exact ⟨fun x hx => hex3.1 x (hsub.1 x hx),
        fun x hx => hex3.2.1 x (hsub.2.1 x hx),
        fun x hx => hex3.2.2 x (hsub.2.2 x hx)⟩
    · rcases updatedRundownEvents_shape _ _ _ _ _ _ hb with ⟨r, ru, rfl⟩
      have hr : r = rid := by simpa [isRundownCreateOrUpdate] using hflag
      subst hr
      have hrl := updatedRundownEvents_rid _ _ _ _ _ _ _ hb
      exact filterCovered_excludes (playlistAssignments (pollInput env gv pl st))
        (updatedRundownIds (pollInput env gv pl st))
        (segListsAfterCreated (pollInput env gv pl st)) r hrl.1 hrl.2
    · rcases emitChangedSegments_shape _ _ _ _ _ hb with ⟨p, _, seg, rfl⟩
      simp [isRundownCreateOrUpdate] at hflag
    · rcases emitCreatedSegments_shape _ _ _ _ _ hb with ⟨p, _, seg, rfl⟩
      simp [isRundownCreateOrUpdate] at hflag
    · rcases ranksEvents_shape _ _ hb with ⟨p, _, rfl⟩
      simp [isRundownCreateOrUpdate] at hflag
  intro e he
  simp only [pollEvents, List.mem_append] at he
  rcases he with hb | hb | hb | hb | hb | hb | hb
  · rcases deletedRundownEvents_shape _ _ hb with ⟨r, rfl⟩
    rfl
  · rcases deletedSegmentEvents_shape _ _ hb with ⟨p, _, rfl⟩
    rfl
  · rcases createdRundownEvents_shape _ _ _ _ _ _ hb with ⟨r, ru, rfl⟩
    rfl
  · rcases updatedRundownEvents_shape _ _ _ _ _ _ hb with ⟨r, ru, rfl⟩
    rfl
  · rcases emitChangedSegments_shape _ _ _ _ _ hb with ⟨p, hp, seg, rfl⟩
    show (p.1 == rid) = false
    exact beq_eq_false_iff_ne.mpr (hexcl.1 p hp)
  · rcases emitCreatedSegments_shape _ _ _ _ _ hb with ⟨p, hp, seg, rfl⟩
    show (p.1 == rid) = false
    exact beq_eq_false_iff_ne.mpr (hexcl.2.1 p hp)
  · rcases ranksEvents_shape _ _ hb with ⟨p, hp, rfl⟩
    rcases buildUpdatedRanks_keys_from (assignedRanks (pollInput env gv pl st))
      (ingestCacheData (pollInput env gv pl st))
      (segListsFinal (pollInput env gv pl st)).moved [] p hp with hk | ⟨s, hs⟩
    · simp at hk
    · show (p.1 == rid) = false
      exact beq_eq_false_iff_ne.mpr (hexcl.2.2 (p.1, s) hs)

/-- An environment that reports rundown "Q_1" as created. -/
def env3 : Env Unit :=
  { trivEnv with diffPlaylist := fun _ _ =>
      ([PlaylistChange.rundownCreated "Q_1"], ()) }

/-- The rundown_create event emitted by the `env3` poll. -/
def ev3W : WatcherEvent :=
  WatcherEvent.rundownCreate "Q_1"
    { externalId := "Q_1", name := "Q", segments := [],
      playlistExternalId := "Q", backTime := none }

/-- Witness for C3 at a concrete input: the poll emits a rundown_create for
"Q_1", and its own event carries no segment-level flag for "Q_1". -/
theorem rundownCoversSegmentsWitness : isSegmentEventIn "Q_1" ev3W = false :=
  rundownCoversSegments env3 "v" emptyRundownV emptyState "Q_1"
    (by decide) ev3W (by decide)

end Gateway
